import Mathlib

/-
Verification of the question_app streaming question-generation pipeline.

This file shallowly embeds the data model and the operations of the
`question_app` repository (routers.py and the services package) as Lean
definitions and proves properties of them.

Modelling conventions:
* Python `str` is Lean `String`; `str | None` is `Option String`; Python
  truthiness of such optionals (`if s:`) is `pyTruthy`.
* External collaborator calls (Elasticsearch, MySQL, Ollama, Qdrant, the
  generative agent, the callback) are oracles: their results are inputs of
  the embedded functions.  A call that can raise is given outcome type
  `Res` (`ok` / `exn` for an `Exception` / `cancel` for an
  `asyncio.CancelledError`, which in Python 3 is *not* an `Exception`).
* `random.shuffle` / `random.randint` are threaded as explicit parameters.
* Python's stable `list.sort(key=..., reverse=True)` is embedded as a
  stable descending insertion sort (`sortYearDesc`), which is
  extensionally the unique stable descending sort.
* `time.perf_counter()` readings are exact integer timestamps in the environment,
  one per call site, in program order.
-/

/-- `models.QuestionSource` (models.py). -/
inductive QuestionSource
  | sameOrder
  | sameCourse
  | sameUniversity
  | historical
  | imitated
  | generated
  | rewritten
  deriving DecidableEq, Repr

/-- `models.QuestionType` (models.py).  The Python value `"open"` is the
constructor `openEnded` (`open` is a Lean keyword). -/
inductive QuestionType
  | any
  | calculation
  | multipleChoice
  | openEnded
  deriving DecidableEq, Repr

/-- `models.Question` (models.py).  The `uuid4` identifier is abstracted
as a `Nat` (`id.int` in Python); `batch_no` defaults to 1. -/
structure Question where
  id : Nat := 0
  content : String
  source : QuestionSource
  qtype : QuestionType
  meta_info : Option String := none
  batch_no : Nat := 1
  deriving DecidableEq, Repr

/-- Python whitespace characters stripped by `str.strip()`. -/
def isPyWhitespace (c : Char) : Bool :=
  c == ' ' || c == '\t' || c == '\n' || c == '\r' || c == '\x0b' || c == '\x0c'

/-- `str.strip()` on a character list. -/
def pyStripChars (cs : List Char) : List Char :=
  ((cs.dropWhile isPyWhitespace).reverse.dropWhile isPyWhitespace).reverse

/-- Python `str.strip()`. -/
def pyStrip (s : String) : String := String.mk (pyStripChars s.data)

/-- Python `str.lower()` (ASCII, which is all the pipeline feeds it). -/
def pyLower (s : String) : String := String.mk (s.data.map Char.toLower)

/-- Python `str.upper()` (ASCII). -/
def pyUpper (s : String) : String := String.mk (s.data.map Char.toUpper)

/-- Python truthiness of a `str | None` value: `None` and `""` are falsy. -/
def pyTruthy : Option String → Bool
  | none => false
  | some s => !(s == "")

/-- Python `"sep".join(parts)`. -/
def joinStrings (sep : String) : List String → String
  | [] => ""
  | [x] => x
  | x :: y :: xs => x ++ sep ++ joinStrings sep (y :: xs)

/-- Split a character list at every `'\n'` (the lines that `(?m)^...$`
regexes operate on). -/
def splitLinesAux : List Char → List Char → List (List Char)
  | [], acc => [acc.reverse]
  | c :: rest, acc =>
    if c == '\n' then acc.reverse :: splitLinesAux rest []
    else splitLinesAux rest (c :: acc)

/-- Split a string into its `'\n'`-separated lines. -/
def splitNL (s : String) : List String := (splitLinesAux s.data []).map String.mk

/-- Year extraction of `sort_by_year` (routers.py:378-381): `year = 0`
unless `it.meta_info` is truthy and `re.search(r"^20\d\d", it.meta_info)`
matches; the `^` anchor means the meta info must *begin* with `20dd`. -/
def extractYear (meta_info : Option String) : Nat :=
  match meta_info with
  | none => 0
  | some s =>
    match s.data with
    | '2' :: '0' :: c :: d :: _ =>
      if c.isDigit && d.isDigit then 2000 + 10 * (c.toNat - 48) + (d.toNat - 48) else 0
    | _ => 0

/-- Insert a `(year, question)` pair into a descending-sorted list, after
all pairs with a strictly larger year and before pairs with the same year
(the placement Python's stable `sort(reverse=True)` gives the head of the
original list). -/
def insertYearDesc (p : Nat × Question) : List (Nat × Question) → List (Nat × Question)
  | [] => [p]
  | q :: qs => if q.1 > p.1 then q :: insertYearDesc p qs else p :: q :: qs

/-- Stable descending sort on `(year, question)` pairs, extensionally
equal to `pairs.sort(key=lambda x: x[0], reverse=True)` (routers.py:383). -/
def sortYearDesc : List (Nat × Question) → List (Nat × Question)
  | [] => []
  | p :: ps => insertYearDesc p (sortYearDesc ps)

/-- `sort_by_year` (routers.py:375-384). -/
def sort_by_year (qs : List Question) : List Question :=
  (sortYearDesc (qs.map (fun it => (extractYear it.meta_info, it)))).map Prod.snd

/-- Number of leading `'#'` characters of a line. -/
def headingHashes (cs : List Char) : Nat := (cs.takeWhile (fun c => c == '#')).length

/-- One line of `re.sub(r"(?m)^#{1,4} (.+)$", "**\1**", content)`
(routers.py:389): a line made of 1-4 `'#'`, a space and a nonempty rest
becomes `**rest**`; every other line is unchanged. -/
def cleanseLine (line : String) : String :=
  let cs := line.data
  let k := headingHashes cs
  match cs.drop k with
  | ' ' :: r1 =>
    if 1 ≤ k && k ≤ 4 && !r1.isEmpty then String.mk ('*' :: '*' :: (r1 ++ ['*', '*']))
    else line
  | _ => line

/-- `re.sub(r"(?m)^#{1,4} (.+)$", "**\1**", s)` applied line by line. -/
def cleanseContent (s : String) : String :=
  joinStrings "\n" ((splitNL s).map cleanseLine)

/-- `cleanse_question_content` (routers.py:387-390); the Python version
mutates each question's `content` in place and returns the same list. -/
def cleanse_question_content (qs : List Question) : List Question :=
  qs.map (fun it => { it with content := cleanseContent it.content })

/-- Does a line start with an option marker, i.e. does
`re.split(r"(?m)^[A-Z]\) ", s)` match here: an ASCII capital, `')'`, `' '`. -/
def isOptionMark (a b c : Char) : Bool :=
  ('A' ≤ a && a ≤ 'Z') && b == ')' && c == ' '

/-- Scanner for `re.split(r"(?m)^[A-Z]\) ", s)` (agent.py:18): walk the
characters left to right, tracking whether the position is a line start
(string start or just after `'\n'`); a matching `X) ` at a line start
closes the current segment and is discarded. -/
def splitOptionsAux : List Char → Bool → List Char → List (List Char)
  | [], _, acc => [acc.reverse]
  | a :: b :: c :: rest, true, acc =>
    if isOptionMark a b c then acc.reverse :: splitOptionsAux rest false []
    else splitOptionsAux (b :: c :: rest) (a == '\n') (a :: acc)
  | a :: rest, _, acc => splitOptionsAux rest (a == '\n') (a :: acc)

/-- `parts = re.split(r"(?m)^[A-Z]\) ", s)` (agent.py:18). -/
def splitOptionParts (s : String) : List String :=
  (splitOptionsAux s.data true []).map String.mk

/-- `chr(ord("A") + i)` (agent.py:24). -/
def letterChar (i : Nat) : Char := Char.ofNat ('A'.toNat + i)

/-- `reorder_choices` (agent.py:15-28).  `random.shuffle` is threaded as
the explicit `shuffle` parameter; the `try`/`except` wrapper never fires
in the embedded (total) domain. -/
def reorder_choices (shuffle : List String → List String) (text : String) : String :=
  let s := pyStrip text
  let parts := splitOptionParts s
  if parts.length ≤ 3 || parts.length ≥ 8 then text
  else
    let stem := parts.headD ""
    let base_options := (parts.drop 1).map pyStrip
    let shuffled := shuffle base_options
    let new_options :=
      ((List.range shuffled.length).zip shuffled).map
        (fun pr => String.mk [letterChar pr.1] ++ ") " ++ pr.2)
    stem ++ joinStrings "\n" new_options

/-- The three questions of the claim's example, with meta info strings
`"... 2019 ..."`, `"..."` and `"... 2023 ..."`. -/
def qMetaDots2019 : Question :=
  { id := 1, content := "a", source := .historical, qtype := .openEnded,
    meta_info := some "... 2019 ..." }

def qMetaDotsNoYear : Question :=
  { id := 2, content := "b", source := .historical, qtype := .openEnded,
    meta_info := some "..." }

def qMetaDots2023 : Question :=
  { id := 3, content := "c", source := .historical, qtype := .openEnded,
    meta_info := some "... 2023 ..." }

def qMetaHead2019 : Question :=
  { id := 1, content := "a", source := .historical, qtype := .openEnded,
    meta_info := some "2019 final" }

def qMetaHeadNoYear : Question :=
  { id := 2, content := "b", source := .historical, qtype := .openEnded,
    meta_info := some "..." }

def qMetaHead2023 : Question :=
  { id := 3, content := "c", source := .historical, qtype := .openEnded,
    meta_info := some "2023 final" }

/-- One entry of the `"judgements"` array after the per-item parse
(agent.py:78-82): `none` when `int(it["question_index"])` or
`bool(it["can_be_solved"])` raised and the per-item `except` swallowed
it; otherwise the parsed index (a Python `int`, possibly negative) and
the solvability flag. -/
abbrev JudgementEntry := Option (Int × Bool)

/-- The agent's judgement payload as `verify_questions` sees it:
`noMatch` when the fenced-JSON regex finds nothing (no filtering at
all), `malformed` when `json.loads` or the `"judgements"` lookup raises
(this happens *outside* the per-item `try` and so propagates), `parsed`
otherwise. -/
inductive JudgementPayload
  | noMatch
  | malformed
  | parsed (entries : List JudgementEntry)

/-- Python index resolution for a list of length `n`: a negative index
counts from the end; the result is `none` exactly when indexing would
raise `IndexError`. -/
def pyIndex (n : Nat) (i : Int) : Option Nat :=
  let j : Int := if i < 0 then i + n else i
  if 0 ≤ j ∧ j < n then some j.toNat else none

/-- `goods[q_idx] = False` under Python list-index semantics; an
out-of-range index raises `IndexError`, which the per-item `except`
swallows (list unchanged). -/
def pySetFalse (goods : List Bool) (i : Int) : List Bool :=
  match pyIndex goods.length i with
  | some k => goods.set k false
  | none => goods

/-- One iteration of the `for it in obj["judgements"]` loop
(agent.py:77-84). -/
def applyJudgement (goods : List Bool) (e : JudgementEntry) : List Bool :=
  match e with
  | none => goods
  | some (_, true) => goods
  | some (i, false) => pySetFalse goods i

/-- `[q for q, flag in zip(questions, goods) if flag]` (agent.py:85). -/
def zipFilterFlags : List Question → List Bool → List Question
  | [], _ => []
  | _ :: _, [] => []
  | q :: qs, f :: fs => if f then q :: zipFilterFlags qs fs else zipFilterFlags qs fs

/-- `AgentService.verify_questions` (agent.py:62-86): empty input
short-circuits; `goods` defaults every index to `True`; each judgement
entry is applied per item; the kept questions are zipped back out. -/
def verify_questions (questions : List Question) (payload : JudgementPayload) :
    Except Unit (List Question) :=
  if questions = [] then .ok []
  else
    let goods0 := List.replicate questions.length true
    match payload with
    | .malformed => .error ()
    | .noMatch => .ok (zipFilterFlags questions goods0)
    | .parsed entries => .ok (zipFilterFlags questions (entries.foldl applyJudgement goods0))

/-- Does judgement entry `e` explicitly mark position `pos` (of `n`
questions) as not solvable? -/
def entryNegates (n : Nat) (pos : Nat) (e : JudgementEntry) : Bool :=
  match e with
  | none => false
  | some (_, true) => false
  | some (i, false) => pyIndex n i == some pos

/-- Does some judgement entry explicitly mark position `pos` as not
solvable? -/
def explicitlyNegated (entries : List JudgementEntry) (n : Nat) (pos : Nat) : Bool :=
  entries.any (entryNegates n pos)

def qWitness0 : Question :=
  { id := 10, content := "w0", source := .historical, qtype := .openEnded }

def qWitness1 : Question :=
  { id := 11, content := "w1", source := .historical, qtype := .openEnded }

def qWitness2 : Question :=
  { id := 12, content := "w2", source := .historical, qtype := .openEnded }

/-- `if question_type != Any and q_type != question_type: continue`
(agent.py:174/216), as a keep-predicate. -/
def keepForRequest (question_type : QuestionType) (t : QuestionType) : Bool :=
  !(question_type ≠ QuestionType.any && t ≠ question_type)

/-- Turning one parsed `(content, type)` unit into a `Question`
(agent.py:176-178/218-220): multiple-choice content goes through
`reorder_choices`; the source is `Generated`. -/
def convertUnit (shuffle : List String → List String)
    (p : String × QuestionType) : Question :=
  { content := if p.2 = QuestionType.multipleChoice then reorder_choices shuffle p.1 else p.1,
    source := .generated, qtype := p.2 }

/-- One debounce tick of `generate_stream_first` / `generate_stream_second`
(agent.py:167-180, 209-222): `pairs` holds the units parsed from the
*entire accumulated* text; the units from `offset` on are processed,
type-mismatched ones skipped, and the offset advances to `len(pairs)`
regardless. -/
def streamTick (shuffle : List String → List String) (question_type : QuestionType)
    (offset : Nat) (pairs : List (String × QuestionType)) : Nat × List Question :=
  (pairs.length,
   ((pairs.drop offset).filter (fun p => keepForRequest question_type p.2)).map
     (convertUnit shuffle))

/-- The debounced loop: one `(offset-after, yielded batch)` pair per
tick; the i-th snapshot is the unit list parsed from the accumulated
text at tick i. -/
def streamTicks (shuffle : List String → List String) (question_type : QuestionType) :
    Nat → List (List (String × QuestionType)) → List (Nat × List Question)
  | _, [] => []
  | offset, ps :: rest =>
    streamTick shuffle question_type offset ps ::
      streamTicks shuffle question_type (streamTick shuffle question_type offset ps).1 rest

/-- The streaming parse of a whole generation batch, starting at offset 0. -/
def generate_stream_parse (shuffle : List String → List String)
    (question_type : QuestionType) (snaps : List (List (String × QuestionType))) :
    List (Nat × List Question) :=
  streamTicks shuffle question_type 0 snaps

def shuffleId : List String → List String := fun l => l

def snapsC7 : List (List (String × QuestionType)) :=
  [[("a", QuestionType.calculation)],
   [("a", QuestionType.calculation), ("b", QuestionType.openEnded),
    ("c", QuestionType.calculation)]]

/-- `QuestionType.to_elasticsearch_keyword` (models.py:128-139). -/
def toElasticsearchKeyword : QuestionType → Option String
  | .any => none
  | .calculation => some "calculation"
  | .multipleChoice => some "mcq"
  | .openEnded => some "open"

/-- `QuestionSearchService._normalize_course_code` (question.py:102-110):
falsy input gives `None`; otherwise uppercase, drop non-alphanumerics,
drop leading zeros; if nothing is left, `None`. -/
def normalize_course_code (s : Option String) : Option String :=
  match s with
  | none => none
  | some s0 =>
    if s0 == "" then none
    else
      let u := (pyUpper s0).data.filter
        (fun c => ('A' ≤ c && c ≤ 'Z') || ('0' ≤ c && c ≤ '9'))
      let stripped := u.dropWhile (fun c => c == '0')
      if stripped.isEmpty then none else some (String.mk stripped)

/-- One Elasticsearch question-search call issued by `find_questions`
(the two `ElasticsearchService.search_questions_*` entry points,
elasticsearch.py:42/64), with the arguments that identify it. -/
inductive ESCall
  | sameCourse (kp : String) (q_type : Option String) (course_code : String)
      (university : String) (limit : Nat)
  | historical (kp : String) (q_type : Option String) (majors : List String)
      (course_code : Option String) (university : Option String) (limit : Nat)
  deriving DecidableEq, Repr

/-- Oracle results of the collaborators that `find_questions` /
`find_majors` (question.py) call; embedding vectors are opaque handles. -/
structure SearchEnv where
  embed_one : String → Nat
  embed_several : String → String → Nat × Nat
  query_closest_major : Nat → Option String
  select_sim_majors : String → List String
  search_same_course : ESCall → List Question
  search_historical : ESCall → List Question
  select_question_contents : List Nat → List (Nat × String)

/-- `QuestionSearchService.find_majors` (question.py:112-122): falsy
major gives `[]`; embed it, find the closest catalogued major (falsy
result gives `[]`), then fetch the majors at similarity >= 0.8. -/
def find_majors (env : SearchEnv) (major : Option String) : List String :=
  if !pyTruthy major then []
  else
    let vec := env.embed_one (major.getD "")
    match env.query_closest_major vec with
    | none => []
    | some closest =>
      if closest == "" then [] else env.select_sim_majors closest

/-- The probe text `QuestionSearchService._create_embeddings` builds
(question.py:85-100). -/
def create_embeddings_text (kp : String)
    (context major course_name : Option String) : String :=
  let parts : List String :=
    (if pyTruthy major then
      ["<major>" ++ pyLower (pyStrip (major.getD "")) ++ "</major>"] else []) ++
    (if pyTruthy course_name then
      ["<course-name>" ++ pyLower (pyStrip (course_name.getD "")) ++ "</course-name>"]
     else []) ++
    (if pyTruthy context then
      ["This is a question related to the following context:\n" ++ pyStrip (context.getD "")]
     else [])
  if parts.isEmpty then "This is a question related to " ++ kp
  else joinStrings "\n\n" parts

/-- The content-replacement inner loop (question.py:58-63 / 77-82): for
one `(int_id, q_content)` pair, walk the questions, and at the *first*
one with that id replace its content when the fetched content is truthy,
then `break`. -/
def replaceFirst : List Question → Nat → String → List Question
  | [], _, _ => []
  | q :: rest, int_id, c =>
    if q.id = int_id then
      (if c ≠ "" then { q with content := c } :: rest else q :: rest)
    else q :: replaceFirst rest int_id c

/-- The outer `for int_id, q_content in pairs` loop. -/
def replaceContents (qs : List Question) (pairs : List (Nat × String)) : List Question :=
  pairs.foldl (fun acc pr => replaceFirst acc pr.1 pr.2) qs

/-- `QuestionSearchService.find_questions` (question.py:23-83), the
eager two-list version committed under `src/services/question.py`.  The
second component of the result records the Elasticsearch question
searches issued, in order. -/
def find_questions (env : SearchEnv) (exam_kp : String) (context : Option String)
    (question_type : QuestionType)
    (major_name course_name course_code university : Option String)
    (limit_same_course limit_historical : Nat) :
    (List Question × List Question) × List ESCall :=
  let kp := pyLower (pyStrip exam_kp)
  let course_code :=
    if pyTruthy course_code then normalize_course_code course_code else course_code
  let _vecs := env.embed_several kp (create_embeddings_text kp context major_name course_name)
  let q_type := toElasticsearchKeyword question_type
  let majors : Option (List String) :=
    if pyTruthy major_name then some (find_majors env major_name) else none
  if majors.getD [] = [] then (([], []), [])
  else
    let pr1 :=
      if pyTruthy course_code && pyTruthy university then
        let call := ESCall.sameCourse kp q_type (course_code.getD "") (university.getD "")
          limit_same_course
        (env.search_same_course call, [call])
      else ([], [])
    let qs_same_course :=
      if pr1.1 ≠ [] then
        replaceContents pr1.1 (env.select_question_contents (pr1.1.map (fun q => q.id)))
      else pr1.1
    let call2 := ESCall.historical kp q_type (majors.getD []) course_code university
      limit_historical
    let qs_historical := env.search_historical call2
    let qs_historical :=
      if qs_historical ≠ [] then
        replaceContents qs_historical
          (env.select_question_contents (qs_historical.map (fun q => q.id)))
      else qs_historical
    ((qs_same_course, qs_historical), pr1.2 ++ [call2])

def searchEnvC10 : SearchEnv :=
  { embed_one := fun _ => 0,
    embed_several := fun _ _ => (0, 1),
    query_closest_major := fun _ => none,
    select_sim_majors := fun _ => ["Mathematics"],
    search_same_course := fun _ => [qWitness0],
    search_historical := fun _ => [qWitness1],
    select_question_contents := fun _ => [] }

/-- Modelled from the spec: the three-tier `find_questions` retriever
that `iter_blocks` (routers.py:436-448) and the test suite consume as a
lazy 3-element async generator is missing from `src` -
`src/services/question.py` holds an older eager two-list version whose
signature does not match that caller.  Spec §4.1: "retrieve(...) → lazy
3-element sequence of Question lists, produced in strict order:
same-course, same-university, historical. [...] Each tier independently
catches collaborator-level failure and degrades to an empty list for
that tier only (no propagation)."  Each tier's collaborator search is an
`Except`-valued thunk, forced when that tier is pulled. -/
structure RetrieveTiers where
  search_same_course : Unit → Except String (List Question)
  search_same_university : Unit → Except String (List Question)
  search_historical : Unit → Except String (List Question)

/-- Modelled from the spec: per-tier recovery — a failed collaborator
call degrades to an empty list for that tier. -/
def recoverTier (r : Except String (List Question)) : List Question :=
  match r with
  | .ok qs => qs
  | .error _ => []

/-- Modelled from the spec: the tier sequence produced by the retriever,
in strict order same-course, same-university, historical. -/
def find_questions_stream (t : RetrieveTiers) : List (List Question) :=
  [recoverTier (t.search_same_course ()),
   recoverTier (t.search_same_university ()),
   recoverTier (t.search_historical ())]

def tiersC2 : RetrieveTiers :=
  { search_same_course := fun _ => .ok [qWitness0],
    search_same_university := fun _ => .error "search collaborator down",
    search_historical := fun _ => .ok [qWitness2] }

/-- Outcome of one awaited collaborator call inside `iter_blocks`:
normal return, an `Exception`, or an `asyncio.CancelledError` — in
Python 3 the latter subclasses `BaseException`, not `Exception`, so an
`except Exception` clause does *not* catch it. -/
inductive Res (α : Type)
  | ok (a : α)
  | exn
  | cancel
  deriving DecidableEq, Repr

/-- `models.AnalyzeQueryOutput` together with the `synonyms` attribute
the router reads (routers.py:425). -/
structure AQOut where
  primary_term : String
  secondary_terms : List String
  synonyms : List String
  deriving DecidableEq, Repr

/-- `models.AnalyzeDescriptionOutput` (models.py:258-262). -/
structure AnalyzeDescriptionOutput where
  key_concepts : String := ""
  requirement : String := ""
  referential_question : String := ""
  other_info : String := ""
  deriving DecidableEq, Repr

/-- `models.KeyPoint` (models.py:151-154). -/
structure KeyPoint where
  name : String
  explanation : String
  relevance : String
  deriving DecidableEq, Repr

/-- The joined result of the background `extract_key_points` task
(routers.py:347-372). -/
structure Knowledge where
  analyzed_context : AnalyzeDescriptionOutput
  key_points : List KeyPoint
  chunks : List (String × String)
  deriving DecidableEq, Repr

/-- The `status` literal of a non-terminal `StreamBlock`
(models.py:273). -/
inductive BlockStatus
  | start
  | progress
  | finish
  | checkpoint
  deriving DecidableEq, Repr

/-- `models.StreamBlock` (models.py:270-300). -/
structure StreamBlock where
  done : Bool := false
  q_src : Option QuestionSource := none
  status : Option BlockStatus := none
  count : Option Nat := none
  time : Option ℤ := none
  questions : Option (List Question) := none
  deriving DecidableEq, Repr

/-- `StreamBlock(q_src=..., status="start")`. -/
def StreamBlock.startB (src : QuestionSource) : StreamBlock :=
  { q_src := some src, status := some .start }

/-- `StreamBlock(q_src=..., status="progress", questions=...)`. -/
def StreamBlock.progressB (src : QuestionSource) (qs : List Question) : StreamBlock :=
  { q_src := some src, status := some .progress, questions := some qs }

/-- `StreamBlock(q_src=..., status="finish", count=..., time=...)`. -/
def StreamBlock.finishB (src : QuestionSource) (count : Nat) (time : ℤ) : StreamBlock :=
  { q_src := some src, status := some .finish, count := some count, time := some time }

/-- `StreamBlock(q_src=..., status="checkpoint", count=..., time=...)`. -/
def StreamBlock.checkpointB (src : QuestionSource) (count : Nat) (time : ℤ) : StreamBlock :=
  { q_src := some src, status := some .checkpoint, count := some count, time := some time }

/-- `StreamBlock(done=True, count=..., time=...)` (routers.py:661). -/
def StreamBlock.terminalB (count : Nat) (time : ℤ) : StreamBlock :=
  { done := true, count := some count, time := some time }

/-- `models.QuestionSection` (models.py:326-339). -/
structure QuestionSection where
  q_src : QuestionSource
  batch_no : Nat
  count : Nat
  elapsed : ℤ
  deriving DecidableEq, Repr

/-- The single terminal callback notification issued by `iter_blocks`:
`notify_generate_ok(task_id, questions, sections, note?)` or
`notify_generate_err(task_id, msg, questions, sections)`
(routers.py:633/645/657). -/
inductive Notify
  | ok (task_id : Int) (questions : List Question) (sections : List QuestionSection)
      (note : Option String)
  | err (task_id : Int) (msg : String) (questions : List Question)
      (sections : List QuestionSection)
  deriving DecidableEq, Repr

/-- The question list a notification carries. -/
def Notify.questionsOf : Notify → List Question
  | .ok _ qs _ _ => qs
  | .err _ _ qs _ => qs

/-- The environment of one `iter_blocks` run (routers.py:393-661): the
request's task id, the `perf_counter` readings in program order (one per
call site), and the outcome of every awaited collaborator call, in
program order.  A generation stream is the list of increments it yielded
followed by how the iteration ended. -/
structure GenEnv where
  task_id : Int
  tStart : ℤ
  tSameCourseStart : ℤ
  tSameCourseEnd : ℤ
  tUnivStart : ℤ
  tUnivEnd : ℤ
  tHistStart : ℤ
  tHistEnd : ℤ
  tGenStart : ℤ
  tGen1End : ℤ
  tGen2End : ℤ
  tFinal : ℤ
  log_search : Res Unit
  analyze_query : Res AQOut
  log_search_ext1 : Res Unit
  knowledge : Res Knowledge
  es_open : Res Unit
  tier1 : Res (List Question)
  tier2 : Res (List Question)
  verify2 : Res (List Question)
  log_verify2 : Res Unit
  tier3 : Res (List Question)
  verify3 : Res (List Question)
  log_verify3 : Res Unit
  es_close : Res Unit
  log_search_ext2 : Res Unit
  gen1_increments : List (List Question)
  gen1_end : Res Unit
  gen2_increments : List (List Question)
  gen2_end : Res Unit
  deriving DecidableEq, Repr

/-- The mutable locals of `iter_blocks` (routers.py:404-417), plus the
`(analyzed_context, key_points) != (None, None)` already-joined flag
(routers.py:475/521/561). -/
structure PipeSt where
  questions : List Question := []
  count_same_course : Nat := 0
  count_same_univ : Nat := 0
  count_historical : Nat := 0
  count_gen : Nat := 0
  count_gen_1 : Nat := 0
  count_gen_2 : Nat := 0
  elapsed_same_course : ℤ := 0
  elapsed_same_univ : ℤ := 0
  elapsed_historical : ℤ := 0
  elapsed_gen : ℤ := 0
  elapsed_gen_1 : ℤ := 0
  elapsed_gen_2 : ℤ := 0
  knowledge_joined : Bool := false
  qs_gen : List Question := []
  deriving DecidableEq, Repr

/-- How the `try` body ended: with an `Exception` (handler at
routers.py:634) or a `CancelledError` (handler at routers.py:646). -/
inductive PipeExit
  | exc
  | cancel
  deriving DecidableEq, Repr

/-- One pipeline stage's result: the blocks it yielded, the state
afterwards, and the exception in flight, if any. -/
abbrev StageRes := List StreamBlock × PipeSt × Option PipeExit

/-- Sequential composition of stages: a later stage runs only when no
exception is in flight; yielded blocks concatenate in order. -/
def andThen (r : StageRes) (f : PipeSt → StageRes) : StageRes :=
  match r with
  | (bs, st, none) => (bs ++ (f st).1, (f st).2.1, (f st).2.2)
  | (bs, st, some e) => (bs, st, some e)

/-- Stage, routers.py:420-435: `mysql.log_search` (unprotected), then the
best-effort `try` around `agent.analyze_query` and
`mysql.log_search_ext1` — its `except Exception` falls back to an empty
synonym list while `CancelledError` propagates — then creating the
knowledge task (no await) and entering the Elasticsearch context. -/
def stage_pre (env : GenEnv) (st : PipeSt) : StageRes :=
  match env.log_search with
  | .exn => ([], st, some .exc)
  | .cancel => ([], st, some .cancel)
  | .ok _ =>
    match env.analyze_query, env.log_search_ext1 with
    | .cancel, _ => ([], st, some .cancel)
    | .ok _, .cancel => ([], st, some .cancel)
    | _, _ =>
      match env.es_open with
      | .exn => ([], st, some .exc)
      | .cancel => ([], st, some .cancel)
      | .ok _ => ([], st, none)

/-- Stage, routers.py:449-471, tier 1 (same-course): `start` block, the
tier fetch in its own `try` (`Exception` logged and swallowed,
`CancelledError` propagates), year sort and heading cleanse on a
nonempty result, a `progress` block only then, and a `finish` block with
the tier count and elapsed time. -/
def stage_tier1 (env : GenEnv) (st : PipeSt) : StageRes :=
  let start := [StreamBlock.startB .sameCourse]
  let e := env.tSameCourseEnd - env.tSameCourseStart
  match env.tier1 with
  | .cancel => (start, st, some .cancel)
  | .exn =>
    (start ++ [StreamBlock.finishB .sameCourse 0 e],
     { st with elapsed_same_course := e }, none)
  | .ok qs =>
    if qs = [] then
      (start ++ [StreamBlock.finishB .sameCourse 0 e],
       { st with elapsed_same_course := e }, none)
    else
      let qs2 := cleanse_question_content (sort_by_year qs)
      (start ++ [StreamBlock.progressB .sameCourse qs2,
                 StreamBlock.finishB .sameCourse qs2.length e],
       { st with questions := st.questions ++ qs2,
                 count_same_course := qs2.length,
                 elapsed_same_course := e }, none)

/-- Stage, routers.py:472-511, tier 2 (same-university): on a nonempty
fetch, join the knowledge task (`except Exception` substitutes empties;
cancellation propagates; either way the task counts as consumed), sort,
cleanse, verify (unprotected), audit-log (unprotected), and emit
`progress` only when the verified list is nonempty; `finish` carries the
*verified* count. -/
def stage_tier2 (env : GenEnv) (st : PipeSt) : StageRes :=
  let start := [StreamBlock.startB .sameUniversity]
  let e := env.tUnivEnd - env.tUnivStart
  match env.tier2 with
  | .cancel => (start, st, some .cancel)
  | .exn =>
    (start ++ [StreamBlock.finishB .sameUniversity 0 e],
     { st with elapsed_same_univ := e }, none)
  | .ok qs =>
    if qs = [] then
      (start ++ [StreamBlock.finishB .sameUniversity 0 e],
       { st with elapsed_same_univ := e }, none)
    else
      match env.knowledge with
      | .cancel => (start, st, some .cancel)
      | _ =>
        let st := { st with knowledge_joined := true }
        match env.verify2 with
        | .cancel => (start, st, some .cancel)
        | .exn => (start, st, some .exc)
        | .ok v =>
          match env.log_verify2 with
          | .cancel => (start, st, some .cancel)
          | .exn => (start, st, some .exc)
          | .ok _ =>
            if v = [] then
              (start ++ [StreamBlock.finishB .sameUniversity 0 e],
               { st with elapsed_same_univ := e }, none)
            else
              (start ++ [StreamBlock.progressB .sameUniversity v,
                         StreamBlock.finishB .sameUniversity v.length e],
               { st with questions := st.questions ++ v,
                         count_same_univ := v.length,
                         elapsed_same_univ := e }, none)

/-- Leaving the `async with question_search._elasticsearch` block
(routers.py:435) on the no-exception path, after tier 3. -/
def closeEs (env : GenEnv) (bs : List StreamBlock) (st : PipeSt) : StageRes :=
  match env.es_close with
  | .exn => (bs, st, some .exc)
  | .cancel => (bs, st, some .cancel)
  | .ok _ => (bs, st, none)

/-- The verify/log/emit tail of tier 3 (routers.py:530-553). -/
def stage_tier3_tail (env : GenEnv) (start : List StreamBlock) (st : PipeSt) : StageRes :=
  let e := env.tHistEnd - env.tHistStart
  match env.verify3 with
  | .cancel => (start, st, some .cancel)
  | .exn => (start, st, some .exc)
  | .ok v =>
    match env.log_verify3 with
    | .cancel => (start, st, some .cancel)
    | .exn => (start, st, some .exc)
    | .ok _ =>
      if v = [] then
        closeEs env (start ++ [StreamBlock.finishB .historical 0 e])
          { st with elapsed_historical := e }
      else
        closeEs env (start ++ [StreamBlock.progressB .historical v,
                               StreamBlock.finishB .historical v.length e])
          { st with questions := st.questions ++ v,
                    count_historical := v.length,
                    elapsed_historical := e }

/-- Stage, routers.py:512-553 plus the Elasticsearch context exit,
tier 3 (historical): like tier 2, but with no year sort, and joining the
knowledge task only if tier 2 has not. -/
def stage_tier3 (env : GenEnv) (st : PipeSt) : StageRes :=
  let start := [StreamBlock.startB .historical]
  let e := env.tHistEnd - env.tHistStart
  match env.tier3 with
  | .cancel => (start, st, some .cancel)
  | .exn =>
    closeEs env (start ++ [StreamBlock.finishB .historical 0 e])
      { st with elapsed_historical := e }
  | .ok qs =>
    if qs = [] then
      closeEs env (start ++ [StreamBlock.finishB .historical 0 e])
        { st with elapsed_historical := e }
    else
      if st.knowledge_joined then stage_tier3_tail env start st
      else
        match env.knowledge with
        | .cancel => (start, st, some .cancel)
        | _ => stage_tier3_tail env start { st with knowledge_joined := true }

/-- One `async for` iteration of generation batch 1 (routers.py:582-588):
an empty increment is skipped, a nonempty one is emitted as a `progress`
block and accumulated into `count_gen`, `questions` and `qs_gen`. -/
def genStep1 (acc : List StreamBlock × PipeSt) (inc : List Question) :
    List StreamBlock × PipeSt :=
  if inc = [] then acc
  else
    (acc.1 ++ [StreamBlock.progressB .generated inc],
     { acc.2 with count_gen := acc.2.count_gen + inc.length,
                  questions := acc.2.questions ++ inc,
                  qs_gen := acc.2.qs_gen ++ inc })

/-- `it.batch_no = 2` (routers.py:607-608). -/
def stampBatch2 (q : Question) : Question := { q with batch_no := 2 }

/-- One iteration of batch 2 (routers.py:606-614): additionally stamps
`batch_no = 2` on every question of the increment before emission. -/
def genStep2 (acc : List StreamBlock × PipeSt) (inc : List Question) :
    List StreamBlock × PipeSt :=
  if inc = [] then acc
  else
    (acc.1 ++ [StreamBlock.progressB .generated
                (inc.map stampBatch2)],
     { acc.2 with count_gen := acc.2.count_gen + inc.length,
                  questions := acc.2.questions ++ inc.map stampBatch2,
                  qs_gen := acc.2.qs_gen ++ inc.map stampBatch2 })

/-- The generation stage after the knowledge join: `log_search_ext2`
(unprotected), batch 1, `checkpoint` with batch-1 count/time, batch 2,
`finish` with the *cumulative* `count_gen` and elapsed time
(routers.py:571-620). -/
def stage_gen_tail (env : GenEnv) (start : List StreamBlock) (st : PipeSt) : StageRes :=
  match env.log_search_ext2 with
  | .exn => (start, st, some .exc)
  | .cancel => (start, st, some .cancel)
  | .ok _ =>
    let r1 := env.gen1_increments.foldl genStep1 (start, st)
    match env.gen1_end with
    | .exn => (r1.1, r1.2, some .exc)
    | .cancel => (r1.1, r1.2, some .cancel)
    | .ok _ =>
      let c1 := r1.2.qs_gen.length
      let e1 := env.tGen1End - env.tGenStart
      let st1 : PipeSt := { r1.2 with count_gen_1 := c1, elapsed_gen_1 := e1 }
      let bs1 := r1.1 ++ [StreamBlock.checkpointB .generated c1 e1]
      let r2 := env.gen2_increments.foldl genStep2 (bs1, st1)
      match env.gen2_end with
      | .exn => (r2.1, r2.2, some .exc)
      | .cancel => (r2.1, r2.2, some .cancel)
      | .ok _ =>
        let eg := env.tGen2End - env.tGenStart
        let st2 : PipeSt := { r2.2 with
          elapsed_gen := eg,
          count_gen_2 := r2.2.qs_gen.length - r2.2.count_gen_1,
          elapsed_gen_2 := eg - r2.2.elapsed_gen_1 }
        (r2.1 ++ [StreamBlock.finishB .generated st2.count_gen eg], st2, none)

/-- Stage, routers.py:555-621: the two generation batches under the
single `Generated` tag, preceded by the knowledge join if tiers 2-3 did
not consume it. -/
def stage_gen (env : GenEnv) (st : PipeSt) : StageRes :=
  let st0 : PipeSt := { st with count_gen := 0, qs_gen := [] }
  let start := [StreamBlock.startB .generated]
  if st0.knowledge_joined then stage_gen_tail env start st0
  else
    match env.knowledge with
    | .cancel => (start, st0, some .cancel)
    | _ => stage_gen_tail env start { st0 with knowledge_joined := true }

/-- The five `QuestionSection` summaries, identical in the success,
error and cancellation handlers (routers.py:625-631/637-643/649-655). -/
def sectionsOf (st : PipeSt) : List QuestionSection :=
  [{ q_src := .sameCourse, batch_no := 1, count := st.count_same_course,
     elapsed := st.elapsed_same_course },
   { q_src := .sameUniversity, batch_no := 1, count := st.count_same_univ,
     elapsed := st.elapsed_same_univ },
   { q_src := .historical, batch_no := 1, count := st.count_historical,
     elapsed := st.elapsed_historical },
   { q_src := .generated, batch_no := 1, count := st.count_gen_1,
     elapsed := st.elapsed_gen_1 },
   { q_src := .generated, batch_no := 2, count := st.count_gen_2,
     elapsed := st.elapsed_gen_2 }]

/-- The whole `try` body of `iter_blocks` (routers.py:418-633). -/
def pipeBody (env : GenEnv) : StageRes :=
  andThen (andThen (andThen (andThen (stage_pre env {}) (stage_tier1 env))
    (stage_tier2 env)) (stage_tier3 env)) (stage_gen env)

/-- `iter_blocks` (routers.py:393-661): the emitted block stream and the
terminal notification.  The `except Exception` handler notifies the
error variant, the `except CancelledError` handler notifies the
*success* variant annotated `"request cancelled"`, and the `finally`
block appends the one terminal block with the grand total and the
wall-clock elapsed time on every path. -/
def iter_blocks (env : GenEnv) : List StreamBlock × Notify :=
  match pipeBody env with
  | (bs, st, e) =>
    (bs ++ [StreamBlock.terminalB st.questions.length (env.tFinal - env.tStart)],
     match e with
     | none => .ok env.task_id st.questions (sectionsOf st) none
     | some .exc => .err env.task_id "error when generate" st.questions (sectionsOf st)
     | some .cancel =>
       .ok env.task_id st.questions (sectionsOf st) (some "request cancelled"))

/-- No block of the list is a terminal (`done=true`) block. -/
def allNotDoneB (bs : List StreamBlock) : Bool := bs.all (fun b => !b.done)

/-- Number of questions carried by a (progress) block. -/
def progLen (b : StreamBlock) : Nat := (b.questions.getD []).length

/-- Per-tag running totals of questions carried by progress blocks since
that tag's last `start` block: a `start` block resets its tag's total to
0, a `progress` block adds the number of questions it carries, any other
block leaves the totals unchanged. -/
def stepCount (m : QuestionSource → Nat) (b : StreamBlock) : QuestionSource → Nat :=
  match b.q_src, b.status with
  | some t, some .start => fun u => if u = t then 0 else m u
  | some t, some .progress => fun u => if u = t then m t + progLen b else m u
  | _, _ => m

/-- Scan a stream checking that every `finish` and `checkpoint` block's
`count` equals its tag's running progress total. -/
def checkCounts : (QuestionSource → Nat) → List StreamBlock → Bool
  | _, [] => true
  | m, b :: rest =>
    (match b.q_src, b.status with
     | some t, some .finish => b.count == some (m t)
     | some t, some .checkpoint => b.count == some (m t)
     | _, _ => true)
    && checkCounts (stepCount m b) rest

/-- The number of questions carried by the progress blocks of tag `t`
since `t`'s last start block, over the emitted prefix `pre`. -/
def runningCount (t : QuestionSource) (pre : List StreamBlock) : Nat :=
  (pre.foldl stepCount (fun _ => 0)) t

def qC3 : Question := { id := 5, content := "x", source := .sameCourse, qtype := .openEnded }

def envC3 : GenEnv :=
  { task_id := 9, tStart := 0, tSameCourseStart := 0, tSameCourseEnd := 1,
    tUnivStart := 1, tUnivEnd := 2, tHistStart := 2, tHistEnd := 3,
    tGenStart := 3, tGen1End := 4, tGen2End := 5, tFinal := 6,
    log_search := .ok (), analyze_query := .exn, log_search_ext1 := .ok (),
    knowledge := .ok { analyzed_context := {}, key_points := [], chunks := [] },
    es_open := .ok (), tier1 := .ok [qC3], tier2 := .ok [], verify2 := .ok [],
    log_verify2 := .ok (), tier3 := .ok [], verify3 := .ok [], log_verify3 := .ok (),
    es_close := .ok (), log_search_ext2 := .ok (),
    gen1_increments := [], gen1_end := .ok (), gen2_increments := [], gen2_end := .ok () }

def qGen1 : Question := { id := 21, content := "g1", source := .generated, qtype := .openEnded }

def qGen2 : Question := { id := 22, content := "g2", source := .generated, qtype := .openEnded }

def qGen3 : Question := { id := 23, content := "g3", source := .generated, qtype := .openEnded }

def envC4 : GenEnv :=
  { task_id := 4, tStart := 0, tSameCourseStart := 0, tSameCourseEnd := 1,
    tUnivStart := 1, tUnivEnd := 2, tHistStart := 2, tHistEnd := 3,
    tGenStart := 3, tGen1End := 4, tGen2End := 5, tFinal := 6,
    log_search := .ok (), analyze_query := .exn, log_search_ext1 := .ok (),
    knowledge := .ok { analyzed_context := {}, key_points := [], chunks := [] },
    es_open := .ok (), tier1 := .ok [], tier2 := .ok [], verify2 := .ok [],
    log_verify2 := .ok (), tier3 := .ok [], verify3 := .ok [], log_verify3 := .ok (),
    es_close := .ok (), log_search_ext2 := .ok (),
    gen1_increments := [[qGen1, qGen2]], gen1_end := .ok (),
    gen2_increments := [[qGen3]], gen2_end := .ok () }

def aqW : AQOut := { primary_term := "kp", secondary_terms := [], synonyms := [] }

def envC4w : GenEnv := { envC4 with analyze_query := .ok aqW }

def qT1 : Question := { id := 31, content := "t1", source := .sameCourse, qtype := .openEnded }

def qT2 : Question :=
  { id := 32, content := "t2", source := .sameUniversity, qtype := .openEnded }

def envC8 : GenEnv :=
  { task_id := 8, tStart := 0, tSameCourseStart := 0, tSameCourseEnd := 1,
    tUnivStart := 1, tUnivEnd := 2, tHistStart := 2, tHistEnd := 3,
    tGenStart := 3, tGen1End := 4, tGen2End := 5, tFinal := 6,
    log_search := .ok (), analyze_query := .ok aqW, log_search_ext1 := .ok (),
    knowledge := .ok { analyzed_context := {}, key_points := [], chunks := [] },
    es_open := .ok (), tier1 := .ok [qT1], tier2 := .ok [qT2], verify2 := .ok [qT2],
    log_verify2 := .ok (), tier3 := .cancel, verify3 := .ok [], log_verify3 := .ok (),
    es_close := .ok (), log_search_ext2 := .ok (),
    gen1_increments := [], gen1_end := .ok (), gen2_increments := [], gen2_end := .ok () }

theorem insertYearDesc_perm (p : Nat × Question) (l : List (Nat × Question)) :
    (insertYearDesc p l).Perm (p :: l) := by
  induction l with
  | nil => simp [insertYearDesc]
  | cons q qs ih =>
    simp only [insertYearDesc]
    split
    · exact (ih.cons q).trans (List.Perm.swap p q qs)
    · exact List.Perm.refl _

theorem sortYearDesc_perm (l : List (Nat × Question)) : (sortYearDesc l).Perm l := by
  induction l with
  | nil => simp [sortYearDesc]
  | cons p ps ih => exact (insertYearDesc_perm p (sortYearDesc ps)).trans (ih.cons p)

theorem insertYearDesc_pairwise (p : Nat × Question) (l : List (Nat × Question))
    (h : l.Pairwise (fun a b => b.1 ≤ a.1)) :
    (insertYearDesc p l).Pairwise (fun a b => b.1 ≤ a.1) := by
  induction l with
  | nil => simp [insertYearDesc]
  | cons q qs ih =>
    rcases List.pairwise_cons.mp h with ⟨hq, hqs⟩
    simp only [insertYearDesc]
    split
    · rename_i hgt
      refine List.pairwise_cons.mpr ⟨?_, ih hqs⟩
      intro x hx
      rcases List.mem_cons.mp ((insertYearDesc_perm p qs).mem_iff.mp hx) with hxp | hxqs
      · subst hxp; exact Nat.le_of_lt hgt
      · exact hq x hxqs
    · rename_i hle
      have hle2 : q.1 ≤ p.1 := Nat.le_of_not_lt hle
      refine List.pairwise_cons.mpr ⟨?_, h⟩
      intro x hx
      rcases List.mem_cons.mp hx with hxq | hxqs
      · subst hxq; exact hle2
      · exact Nat.le_trans (hq x hxqs) hle2

theorem sortYearDesc_pairwise (l : List (Nat × Question)) :
    (sortYearDesc l).Pairwise (fun a b => b.1 ≤ a.1) := by
  induction l with
  | nil => simp [sortYearDesc]
  | cons p ps ih => exact insertYearDesc_pairwise p (sortYearDesc ps) ih

theorem sort_by_year_perm (qs : List Question) : (sort_by_year qs).Perm qs := by
  have h := (sortYearDesc_perm (qs.map (fun it => (extractYear it.meta_info, it)))).map Prod.snd
  simpa [sort_by_year, List.map_map, Function.comp_def] using h

theorem sort_by_year_pairwise (qs : List Question) :
    (sort_by_year qs).Pairwise
      (fun a b => extractYear b.meta_info ≤ extractYear a.meta_info) := by
  have hmem : ∀ x ∈ sortYearDesc (qs.map (fun it => (extractYear it.meta_info, it))),
      x.1 = extractYear x.2.meta_info := by
    intro x hx
    have := (sortYearDesc_perm (qs.map (fun it => (extractYear it.meta_info, it)))).mem_iff.mp hx
    rcases List.mem_map.mp this with ⟨q, _, rfl⟩
    rfl
  have hp := sortYearDesc_pairwise (qs.map (fun it => (extractYear it.meta_info, it)))
  have hp2 := List.Pairwise.imp_of_mem
    (fun ha hb hr => by
      rw [hmem _ ha, hmem _ hb] at hr
      exact hr) hp
  exact List.pairwise_map.mpr hp2

/-- C5, counterexample: `re.search(r"^20\d\d", ...)` is anchored at the
start of `meta_info`, so `"... 2019 ..."` and `"... 2023 ..."` yield no
year at all; all three example questions get year 0 and the stable sort
keeps them in input order instead of the claimed `2023, 2019, no-year`. -/
theorem sort_by_year_c5_counterexample :
    sort_by_year [qMetaDots2019, qMetaDotsNoYear, qMetaDots2023] =
      [qMetaDots2019, qMetaDotsNoYear, qMetaDots2023] ∧
    ([qMetaDots2019, qMetaDotsNoYear, qMetaDots2023] : List Question) ≠
      [qMetaDots2023, qMetaDots2019, qMetaDotsNoYear] := by
  constructor
  · decide
  · decide

/-- C5 (amended): `sort_by_year` stably sorts by the exam year parsed
from `meta_info` **only when the meta info string begins with** `20dd`
(year 0 otherwise), descending, so questions without an extractable year
sort last; for meta info strings `"2019 final"`, `"..."`, `"2023 final"`
it returns the 2023 question, the 2019 question, then the no-year one. -/
theorem sort_by_year_c5_amended :
    (∀ qs : List Question,
      (sort_by_year qs).Perm qs ∧
      (sort_by_year qs).Pairwise
        (fun a b => extractYear b.meta_info ≤ extractYear a.meta_info)) ∧
    sort_by_year [qMetaHead2019, qMetaHeadNoYear, qMetaHead2023] =
      [qMetaHead2023, qMetaHead2019, qMetaHeadNoYear] := by
  refine ⟨fun qs => ⟨sort_by_year_perm qs, sort_by_year_pairwise qs⟩, by decide⟩

theorem list_length_eq_four {α : Type} {l : List α} (h : l.length = 4) :
    ∃ a b c d, l = [a, b, c, d] := by
  rcases l with _ | ⟨a, _ | ⟨b, _ | ⟨c, _ | ⟨d, _ | ⟨e, t⟩⟩⟩⟩⟩ <;> simp_all

/-- C9, counterexample: `"Q\nA) x\nB) y\nC) z"` decomposes into a stem
plus exactly **3** option segments — which is not "between 4 and 7", so
by the claim it must be returned untouched — yet `reorder_choices`
accepts it (`len(parts) = 4` is neither `<= 3` nor `>= 8`) and a shuffle
that reverses the options changes the text. -/
theorem reorder_choices_c9_counterexample :
    splitOptionParts (pyStrip "Q\nA) x\nB) y\nC) z") = ["Q\n", "x\n", "y\n", "z"] ∧
    reorder_choices List.reverse "Q\nA) x\nB) y\nC) z" ≠ "Q\nA) x\nB) y\nC) z" := by
  constructor
  · decide
  · decide

/-- C9 (amended): on content whose stripped form splits into a stem plus
exactly 4 option segments, `reorder_choices` keeps the stem and emits the
4 shuffled, stripped option bodies relettered `A) ... D)`; content that
does not decompose into a stem plus between **3 and 6** option segments
(`len(parts) <= 3 or len(parts) >= 8` in agent.py:19) is returned
untouched. -/
theorem reorder_choices_c9_amended (shuffle : List String → List String)
    (hsh : ∀ l : List String, (shuffle l).Perm l)
    (text stem : String) (opts : List String)
    (hsplit : splitOptionParts (pyStrip text) = stem :: opts) :
    (opts.length = 4 →
      ∃ b0 b1 b2 b3 : String,
        shuffle (opts.map pyStrip) = [b0, b1, b2, b3] ∧
        ([b0, b1, b2, b3] : List String).Perm (opts.map pyStrip) ∧
        reorder_choices shuffle text =
          stem ++ joinStrings "\n"
            ["A) " ++ b0, "B) " ++ b1, "C) " ++ b2, "D) " ++ b3]) ∧
    (opts.length ≤ 2 ∨ 7 ≤ opts.length → reorder_choices shuffle text = text) := by
  constructor
  · intro h4
    have hperm := hsh (opts.map pyStrip)
    have hlen : (shuffle (opts.map pyStrip)).length = 4 := by
      rw [hperm.length_eq]; simp [h4]
    obtain ⟨b0, b1, b2, b3, hq⟩ := list_length_eq_four hlen
    refine ⟨b0, b1, b2, b3, hq, hq ▸ hperm, ?_⟩
    have hcond : ¬((stem :: opts).length ≤ 3 ∨ (stem :: opts).length ≥ 8) := by
      simp [h4]
    simp only [reorder_choices, hsplit]
    rw [if_neg (by simpa using hcond)]
    simp only [List.drop_succ_cons, List.drop_zero, List.headD_cons, hq]
    rfl
  · intro hbad
    have hcond : ((stem :: opts).length ≤ 3 ∨ (stem :: opts).length ≥ 8) := by
      rcases hbad with hb | hb
      · exact Or.inl (by simp; omega)
      · exact Or.inr (by simp; omega)
    simp only [reorder_choices, hsplit]
    rw [if_pos (by simpa using hcond)]

/-- Witness for `reorder_choices_c9_amended` at the concrete 4-option
content `"Q\nA) x\nB) y\nC) z\nD) w"` with the reversing shuffle. -/
theorem reorder_choices_c9_amended_witness :
    ∃ b0 b1 b2 b3 : String,
      List.reverse ((["x\n", "y\n", "z\n", "w"] : List String).map pyStrip) = [b0, b1, b2, b3] ∧
      ([b0, b1, b2, b3] : List String).Perm ((["x\n", "y\n", "z\n", "w"] : List String).map pyStrip) ∧
      reorder_choices List.reverse "Q\nA) x\nB) y\nC) z\nD) w" =
        "Q\n" ++ joinStrings "\n" ["A) " ++ b0, "B) " ++ b1, "C) " ++ b2, "D) " ++ b3] :=
  (reorder_choices_c9_amended List.reverse (fun l => l.reverse_perm)
    "Q\nA) x\nB) y\nC) z\nD) w" "Q\n" ["x\n", "y\n", "z\n", "w"] (by decide)).1 rfl

theorem pyIndex_lt (n : Nat) (i : Int) (k : Nat) (h : pyIndex n i = some k) : k < n := by
  simp only [pyIndex] at h
  split at h <;> split at h <;> simp_all <;> omega

theorem pySetFalse_length (goods : List Bool) (i : Int) :
    (pySetFalse goods i).length = goods.length := by
  simp only [pySetFalse]
  split <;> simp

theorem applyJudgement_length (goods : List Bool) (e : JudgementEntry) :
    (applyJudgement goods e).length = goods.length := by
  match e with
  | none => rfl
  | some (_, true) => rfl
  | some (i, false) => exact pySetFalse_length goods i

theorem foldl_applyJudgement_length (entries : List JudgementEntry) (goods : List Bool) :
    (entries.foldl applyJudgement goods).length = goods.length := by
  induction entries generalizing goods with
  | nil => rfl
  | cons e es ih => rw [List.foldl_cons, ih, applyJudgement_length]

theorem getD_set_self (l : List Bool) (k : Nat) (b : Bool) (hk : k < l.length) :
    (l.set k b).getD k false = b := by
  induction l generalizing k with
  | nil => simp at hk
  | cons x xs ih =>
    cases k with
    | zero => rfl
    | succ k => exact ih k (by simpa using hk)

theorem getD_set_other (l : List Bool) (k i : Nat) (b : Bool) (hne : i ≠ k) :
    (l.set k b).getD i false = l.getD i false := by
  induction l generalizing k i with
  | nil => cases k <;> rfl
  | cons x xs ih =>
    cases k with
    | zero => cases i with
      | zero => exact absurd rfl hne
      | succ i => rfl
    | succ k =>
      cases i with
      | zero => rfl
      | succ i => exact ih k i (fun h => hne (by rw [h]))

theorem pySetFalse_getD (goods : List Bool) (i : Int) (pos : Nat) :
    (pySetFalse goods i).getD pos false =
      (goods.getD pos false && !(pyIndex goods.length i == some pos)) := by
  simp only [pySetFalse]
  cases hk : pyIndex goods.length i with
  | none => simp
  | some k =>
    by_cases hpos : pos = k
    · subst hpos
      rw [getD_set_self _ _ _ (pyIndex_lt _ _ _ hk)]
      simp
    · rw [getD_set_other _ _ _ _ hpos]
      simp [Ne.symm hpos]

theorem applyJudgement_getD (goods : List Bool) (e : JudgementEntry) (pos : Nat) :
    (applyJudgement goods e).getD pos false =
      (goods.getD pos false && !entryNegates goods.length pos e) := by
  match e with
  | none => simp [applyJudgement, entryNegates]
  | some (i, true) => simp [applyJudgement, entryNegates]
  | some (i, false) => simpa [applyJudgement, entryNegates] using pySetFalse_getD goods i pos

theorem foldl_applyJudgement_getD (entries : List JudgementEntry) (goods : List Bool)
    (pos : Nat) :
    (entries.foldl applyJudgement goods).getD pos false =
      (goods.getD pos false && !explicitlyNegated entries goods.length pos) := by
  induction entries generalizing goods with
  | nil => simp [explicitlyNegated]
  | cons e es ih =>
    rw [List.foldl_cons, ih, applyJudgement_getD, applyJudgement_length]
    simp [explicitlyNegated, Bool.and_assoc]

theorem enumFrom_fst_ge {α : Type} (l : List α) (n : Nat) :
    ∀ p ∈ l.enumFrom n, n ≤ p.1 := by
  induction l generalizing n with
  | nil => intro p hp; simp [List.enumFrom] at hp
  | cons x xs ih =>
    intro p hp
    rcases List.mem_cons.mp hp with h | h
    · subst h; exact Nat.le_refl n
    · exact Nat.le_of_succ_le (ih (n + 1) p h)

theorem enumFrom_fst_lt {α : Type} (l : List α) (n : Nat) :
    ∀ p ∈ l.enumFrom n, p.1 < n + l.length := by
  induction l generalizing n with
  | nil => intro p hp; simp [List.enumFrom] at hp
  | cons x xs ih =>
    intro p hp
    rcases List.mem_cons.mp hp with h | h
    · subst h; simp
    · have h2 := ih (n + 1) p h
      have h3 : (x :: xs).length = xs.length + 1 := rfl
      omega

theorem getD_replicate_true (n i : Nat) (h : i < n) :
    (List.replicate n true).getD i false = true := by
  induction n generalizing i with
  | zero => omega
  | succ n ih =>
    cases i with
    | zero => rfl
    | succ i => exact ih i (by omega)

theorem zipFilterFlags_spec (questions : List Question) :
    ∀ (goods : List Bool) (n : Nat), goods.length = questions.length →
      zipFilterFlags questions goods =
        ((questions.enumFrom n).filter (fun p => goods.getD (p.1 - n) false)).map Prod.snd := by
  induction questions with
  | nil => intro goods n h; simp [zipFilterFlags, List.enumFrom]
  | cons q qs ih =>
    intro goods n h
    cases goods with
    | nil => simp at h
    | cons f fs =>
      have hcons : List.enumFrom n (q :: qs) = (n, q) :: List.enumFrom (n + 1) qs := rfl
      have htail : (List.enumFrom (n + 1) qs).filter
            (fun p => (f :: fs).getD (p.1 - n) false) =
          (List.enumFrom (n + 1) qs).filter (fun p => fs.getD (p.1 - (n + 1)) false) := by
        apply List.filter_congr
        intro p hp
        have hge : n + 1 ≤ p.1 := enumFrom_fst_ge qs (n + 1) p hp
        have hsub : p.1 - n = (p.1 - (n + 1)) + 1 := by omega
        rw [hsub]
        rfl
      simp only [zipFilterFlags, hcons, List.filter_cons]
      rw [htail]
      have hlen : fs.length = qs.length := by simpa using h
      cases f with
      | true => simp [ih fs (n + 1) hlen]
      | false => simp [ih fs (n + 1) hlen]

/-- C6: `verify_questions` on a nonempty candidate list and a parsed
judgement payload defaults every candidate to solvable and returns, in
original order, exactly the candidates whose position no judgement entry
explicitly marks as not solvable; unparsable entries (`none`) are
ignored. -/
theorem verify_questions_c6 (questions : List Question) (entries : List JudgementEntry)
    (hne : questions ≠ []) :
    verify_questions questions (.parsed entries) =
      .ok (((questions.enum).filter
        (fun p => !explicitlyNegated entries questions.length p.1)).map Prod.snd) := by
  simp only [verify_questions, if_neg hne]
  congr 1
  rw [zipFilterFlags_spec questions (entries.foldl applyJudgement
        (List.replicate questions.length true)) 0
      (by rw [foldl_applyJudgement_length]; simp)]
  have henum : questions.enum = questions.enumFrom 0 := rfl
  rw [henum]
  refine congrArg (List.map Prod.snd) (List.filter_congr ?_)
  intro p hp
  rw [Nat.sub_zero, foldl_applyJudgement_getD]
  have hlt : p.1 < questions.length := by
    simpa using enumFrom_fst_lt questions 0 p hp
  rw [List.length_replicate, getD_replicate_true _ _ hlt]
  simp

/-- Witness for `verify_questions_c6`: 3 questions and the payload
`{"judgements": [{"question_index": 0, "can_be_solved": false}]}` give
back exactly the questions at indices 1 and 2, in original order. -/
theorem verify_questions_c6_witness :
    (([qWitness0, qWitness1, qWitness2] : List Question) ≠ []) ∧
    verify_questions [qWitness0, qWitness1, qWitness2] (.parsed [some (0, false)]) =
      .ok [qWitness1, qWitness2] := by
  refine ⟨by decide, ?_⟩
  rw [verify_questions_c6 [qWitness0, qWitness1, qWitness2] [some (0, false)] (by decide)]
  rfl

theorem streamTicks_offsets (shuffle : List String → List String)
    (question_type : QuestionType) (off : Nat)
    (snaps : List (List (String × QuestionType))) :
    (streamTicks shuffle question_type off snaps).map Prod.fst = snaps.map List.length := by
  induction snaps generalizing off with
  | nil => rfl
  | cons s rest ih => simp [streamTicks, streamTick, ih]

theorem chain_isPrefix_getLastD {α : Type} (s : List α) (rest : List (List α))
    (h : List.Chain' (fun a b => a <+: b) (s :: rest)) : s <+: rest.getLastD s := by
  induction rest generalizing s with
  | nil => simp
  | cons t ts ih =>
    rcases List.chain'_cons.mp h with ⟨hst, h2⟩
    rw [List.getLastD_cons]
    exact hst.trans (ih t h2)

theorem streamTicks_flatten (shuffle : List String → List String)
    (question_type : QuestionType) (base : List (String × QuestionType))
    (snaps : List (List (String × QuestionType)))
    (hchain : List.Chain' (fun a b => a <+: b) (base :: snaps)) :
    ((streamTicks shuffle question_type base.length snaps).map Prod.snd).flatten =
      (((snaps.getLastD base).drop base.length).filter
        (fun p => keepForRequest question_type p.2)).map (convertUnit shuffle) := by
  induction snaps generalizing base with
  | nil => simp [streamTicks]
  | cons s rest ih =>
    rcases List.chain'_cons.mp hchain with ⟨hbs, h2⟩
    have hsL : s <+: rest.getLastD s := chain_isPrefix_getLastD s rest h2
    obtain ⟨u, hu⟩ := hsL
    have hlen : base.length ≤ s.length := hbs.length_le
    have hL : (s :: rest).getLastD base = rest.getLastD s := List.getLastD_cons base s rest
    have hdrop1 : (s ++ u).drop base.length = s.drop base.length ++ u := by
      rw [List.drop_append_eq_append_drop, Nat.sub_eq_zero_of_le hlen, List.drop_zero]
    have hdrop2 : (s ++ u).drop s.length = u := by
      rw [List.drop_append_eq_append_drop, List.drop_length, Nat.sub_self, List.drop_zero,
        List.nil_append]
    have ihs := ih s h2
    rw [← hu, hdrop2] at ihs
    simp only [streamTicks, streamTick, List.map_cons, List.flatten_cons]
    rw [hL, ← hu, hdrop1, List.filter_append, List.map_append, ihs]

theorem streamTicks_types (shuffle : List String → List String)
    (question_type : QuestionType) (off : Nat)
    (snaps : List (List (String × QuestionType))) :
    ∀ t ∈ streamTicks shuffle question_type off snaps, ∀ q ∈ t.2,
      question_type ≠ QuestionType.any → q.qtype = question_type := by
  induction snaps generalizing off with
  | nil => intro t ht; simp [streamTicks] at ht
  | cons s rest ih =>
    intro t ht q hq hqt
    rcases List.mem_cons.mp ht with h | h
    · subst h
      rcases List.mem_map.mp hq with ⟨p, hp, rfl⟩
      have hk := (List.mem_filter.mp hp).2
      have hpt : p.2 = question_type := by
        by_contra hne
        simp [keepForRequest, hqt, hne] at hk
      simpa [convertUnit] using hpt
    · exact ih _ t h q hq hqt

/-- C7: over prefix-monotone parse snapshots (re-scanning ever-growing
accumulated text only ever appends complete units), the streaming parse
(i) advances the offset to the number of *all* parsed units at every
tick, matching or not, (ii) emits, over the whole run, exactly the
type-matching units of the final snapshot — each once, so a unit
excluded by the type filter is never emitted on any later tick — and
(iii) every emitted question matches the requested type when the request
is not `Any`. -/
theorem generate_stream_c7 (shuffle : List String → List String)
    (question_type : QuestionType) (snaps : List (List (String × QuestionType)))
    (hmono : List.Chain' (fun a b => a <+: b) snaps) :
    ((generate_stream_parse shuffle question_type snaps).map Prod.fst =
      snaps.map List.length) ∧
    (((generate_stream_parse shuffle question_type snaps).map Prod.snd).flatten =
      ((snaps.getLastD []).filter
        (fun p => keepForRequest question_type p.2)).map (convertUnit shuffle)) ∧
    (∀ t ∈ generate_stream_parse shuffle question_type snaps, ∀ q ∈ t.2,
      question_type ≠ QuestionType.any → q.qtype = question_type) := by
  refine ⟨streamTicks_offsets shuffle question_type 0 snaps, ?_,
    streamTicks_types shuffle question_type 0 snaps⟩
  have hchain : List.Chain' (fun a b : List (String × QuestionType) => a <+: b)
      ([] :: snaps) := by
    rcases snaps with _ | ⟨s, rest⟩
    · simp
    · exact List.chain'_cons.mpr ⟨List.nil_prefix, hmono⟩
  have h := streamTicks_flatten shuffle question_type [] snaps hchain
  simpa [generate_stream_parse] using h

/-- Witness for `generate_stream_c7`: two prefix-monotone snapshots, a
`calculation`-typed request, and an `open`-typed unit appearing in the
second snapshot. -/
theorem generate_stream_c7_witness :
    ((generate_stream_parse shuffleId QuestionType.calculation snapsC7).map Prod.fst =
      snapsC7.map List.length) ∧
    (((generate_stream_parse shuffleId QuestionType.calculation snapsC7).map
        Prod.snd).flatten =
      ((snapsC7.getLastD []).filter
        (fun p => keepForRequest QuestionType.calculation p.2)).map (convertUnit shuffleId)) ∧
    (∀ t ∈ generate_stream_parse shuffleId QuestionType.calculation snapsC7, ∀ q ∈ t.2,
      QuestionType.calculation ≠ QuestionType.any → q.qtype = QuestionType.calculation) :=
  generate_stream_c7 shuffleId QuestionType.calculation snapsC7
    (List.chain'_cons.mpr
      ⟨⟨[("b", QuestionType.openEnded), ("c", QuestionType.calculation)], rfl⟩,
        List.chain'_singleton _⟩)

/-- C10: when `major_name` is absent (or empty), or the major-similarity
lookup produces an empty major list, `find_questions` returns two empty
lists and issues no Elasticsearch question search at all — even when
`course_code` and `university` are provided. -/
theorem find_questions_c10 (env : SearchEnv) (exam_kp : String) (context : Option String)
    (question_type : QuestionType)
    (major_name course_name course_code university : Option String) (l1 l2 : Nat)
    (h : pyTruthy major_name = false ∨ find_majors env major_name = []) :
    find_questions env exam_kp context question_type major_name course_name course_code
      university l1 l2 = (([], []), []) := by
  simp only [find_questions]
  rcases h with h | h
  · simp [h]
  · by_cases hm : pyTruthy major_name
    · simp [hm, h]
    · simp [hm]

/-- Witness for `find_questions_c10`: the closest-major query finds
nothing, while `course_code` and `university` are both provided and the
search collaborators would return hits if queried. -/
theorem find_questions_c10_witness :
    (pyTruthy (some "math") = false ∨ find_majors searchEnvC10 (some "math") = []) ∧
    find_questions searchEnvC10 "KP" none QuestionType.any (some "math") none
      (some "cs101") (some "uni") 20 20 = (([], []), []) :=
  ⟨Or.inr (by decide),
   find_questions_c10 searchEnvC10 "KP" none QuestionType.any (some "math") none
     (some "cs101") (some "uni") 20 20 (Or.inr (by decide))⟩

/-- C2 (spec-modelled): the retriever yields exactly 3 Question lists in
strict tier order; a tier whose collaborator succeeds carries its
payload, a failed tier degrades to `[]`, and no failure propagates: each
tier's element does not depend on the other tiers' collaborators. -/
theorem find_questions_stream_c2 (t : RetrieveTiers) :
    (find_questions_stream t).length = 3 ∧
    (∀ qs, t.search_same_course () = .ok qs → (find_questions_stream t).getD 0 [] = qs) ∧
    (∀ e, t.search_same_course () = .error e → (find_questions_stream t).getD 0 [] = []) ∧
    (∀ qs, t.search_same_university () = .ok qs →
      (find_questions_stream t).getD 1 [] = qs) ∧
    (∀ e, t.search_same_university () = .error e →
      (find_questions_stream t).getD 1 [] = []) ∧
    (∀ qs, t.search_historical () = .ok qs → (find_questions_stream t).getD 2 [] = qs) ∧
    (∀ e, t.search_historical () = .error e → (find_questions_stream t).getD 2 [] = []) ∧
    (∀ t2 : RetrieveTiers, t2.search_same_university = t.search_same_university →
      (find_questions_stream t2).getD 1 [] = (find_questions_stream t).getD 1 []) := by
  refine ⟨rfl, ?_, ?_, ?_, ?_, ?_, ?_, ?_⟩
  · intro qs h; simp [find_questions_stream, recoverTier, h]
  · intro e h; simp [find_questions_stream, recoverTier, h]
  · intro qs h; simp [find_questions_stream, recoverTier, h]
  · intro e h; simp [find_questions_stream, recoverTier, h]
  · intro qs h; simp [find_questions_stream, recoverTier, h]
  · intro e h; simp [find_questions_stream, recoverTier, h]
  · intro t2 h; simp [find_questions_stream, recoverTier, h]

/-- Witness for `find_questions_stream_c2`: tier 2's collaborator fails;
tiers 1 and 3 still deliver their payloads and tier 2 degrades to `[]`. -/
theorem find_questions_stream_c2_witness :
    (find_questions_stream tiersC2).length = 3 ∧
    (find_questions_stream tiersC2).getD 0 [] = [qWitness0] ∧
    (find_questions_stream tiersC2).getD 1 [] = [] ∧
    (find_questions_stream tiersC2).getD 2 [] = [qWitness2] := by
  obtain ⟨h1, h2, _, _, h5, h6, _, _⟩ := find_questions_stream_c2 tiersC2
  exact ⟨h1, h2 _ rfl, h5 _ rfl, h6 _ rfl⟩

theorem allNotDoneB_append (xs ys : List StreamBlock) :
    allNotDoneB (xs ++ ys) = (allNotDoneB xs && allNotDoneB ys) := by
  simp [allNotDoneB]

theorem stage_pre_blocks (env : GenEnv) (st : PipeSt) : (stage_pre env st).1 = [] := by
  unfold stage_pre
  cases env.log_search <;> try rfl
  cases env.analyze_query <;> cases env.log_search_ext1 <;> try rfl
  all_goals cases env.es_open <;> rfl

theorem closeEs_blocks (env : GenEnv) (bs : List StreamBlock) (st : PipeSt) :
    (closeEs env bs st).1 = bs := by
  unfold closeEs
  cases env.es_close <;> rfl

theorem stage_tier1_notDone (env : GenEnv) (st : PipeSt) :
    allNotDoneB (stage_tier1 env st).1 = true := by
  simp only [stage_tier1]
  repeat' split
  all_goals
    simp [allNotDoneB, StreamBlock.startB, StreamBlock.finishB, StreamBlock.progressB]

theorem stage_tier2_notDone (env : GenEnv) (st : PipeSt) :
    allNotDoneB (stage_tier2 env st).1 = true := by
  simp only [stage_tier2]
  repeat' split
  all_goals
    simp [allNotDoneB, StreamBlock.startB, StreamBlock.finishB, StreamBlock.progressB]

theorem stage_tier3_tail_notDone (env : GenEnv) (start : List StreamBlock) (st : PipeSt)
    (h : allNotDoneB start = true) :
    allNotDoneB (stage_tier3_tail env start st).1 = true := by
  simp only [stage_tier3_tail]
  repeat' split
  all_goals
    try rw [closeEs_blocks]
  all_goals
    simp [allNotDoneB, StreamBlock.startB, StreamBlock.finishB, StreamBlock.progressB,
      List.all_append] at h ⊢
  all_goals first
    | exact h
    | simp_all

theorem stage_tier3_notDone (env : GenEnv) (st : PipeSt) :
    allNotDoneB (stage_tier3 env st).1 = true := by
  simp only [stage_tier3]
  repeat' split
  all_goals
    try
      apply stage_tier3_tail_notDone
      simp [allNotDoneB, StreamBlock.startB]
  all_goals
    try rw [closeEs_blocks]
  all_goals
    simp [allNotDoneB, StreamBlock.startB, StreamBlock.finishB]

theorem genFold1_spec (incs : List (List Question)) (bs : List StreamBlock) (st : PipeSt) :
    incs.foldl genStep1 (bs, st) =
      (bs ++ (incs.filter (fun i => !(i == []))).map
          (fun i => StreamBlock.progressB .generated i),
       { st with count_gen := st.count_gen + incs.flatten.length,
                 questions := st.questions ++ incs.flatten,
                 qs_gen := st.qs_gen ++ incs.flatten }) := by
  induction incs generalizing bs st with
  | nil => simp
  | cons i is ih =>
    by_cases hi : i = []
    · subst hi
      simp only [List.foldl_cons, genStep1, if_pos rfl]
      rw [ih]
      simp
    · simp only [List.foldl_cons, genStep1, if_neg hi]
      rw [ih]
      simp [hi, List.append_assoc, Nat.add_assoc]

theorem genFold2_spec (incs : List (List Question)) (bs : List StreamBlock) (st : PipeSt) :
    incs.foldl genStep2 (bs, st) =
      (bs ++ (incs.filter (fun i => !(i == []))).map
          (fun i => StreamBlock.progressB .generated
            (i.map stampBatch2)),
       { st with count_gen := st.count_gen + incs.flatten.length,
                 questions := st.questions ++
                   incs.flatten.map stampBatch2,
                 qs_gen := st.qs_gen ++
                   incs.flatten.map stampBatch2 }) := by
  induction incs generalizing bs st with
  | nil => simp
  | cons i is ih =>
    by_cases hi : i = []
    · subst hi
      simp only [List.foldl_cons, genStep2, if_pos rfl]
      rw [ih]
      simp
    · simp only [List.foldl_cons, genStep2, if_neg hi]
      rw [ih]
      simp [hi, List.append_assoc, Nat.add_assoc]

theorem allNotDoneB_map_progress {α : Type} (f : α → List Question) (t : QuestionSource)
    (l : List α) :
    allNotDoneB (l.map (fun i => StreamBlock.progressB t (f i))) = true := by
  simp [allNotDoneB, StreamBlock.progressB, List.all_eq_true]

theorem stage_gen_tail_notDone (env : GenEnv) (start : List StreamBlock) (st : PipeSt)
    (h : allNotDoneB start = true) :
    allNotDoneB (stage_gen_tail env start st).1 = true := by
  simp only [stage_gen_tail]
  cases env.log_search_ext2 with
  | exn => simpa using h
  | cancel => simpa using h
  | ok u =>
    rw [genFold1_spec]
    cases env.gen1_end with
    | exn =>
      simp only []
      rw [allNotDoneB_append]
      simp only [Bool.and_eq_true]
      exact ⟨h, allNotDoneB_map_progress (fun i => i) .generated _⟩
    | cancel =>
      simp only []
      rw [allNotDoneB_append]
      simp only [Bool.and_eq_true]
      exact ⟨h, allNotDoneB_map_progress (fun i => i) .generated _⟩
    | ok u2 =>
      rw [genFold2_spec]
      cases env.gen2_end with
      | exn =>
        simp only []
        rw [allNotDoneB_append, allNotDoneB_append, allNotDoneB_append]
        simp only [Bool.and_eq_true]
        refine ⟨⟨⟨h, allNotDoneB_map_progress (fun i => i) .generated _⟩, ?_⟩,
          allNotDoneB_map_progress
            (fun i : List Question => i.map stampBatch2)
            .generated _⟩
        simp [allNotDoneB, StreamBlock.checkpointB]
      | cancel =>
        simp only []
        rw [allNotDoneB_append, allNotDoneB_append, allNotDoneB_append]
        simp only [Bool.and_eq_true]
        refine ⟨⟨⟨h, allNotDoneB_map_progress (fun i => i) .generated _⟩, ?_⟩,
          allNotDoneB_map_progress
            (fun i : List Question => i.map stampBatch2)
            .generated _⟩
        simp [allNotDoneB, StreamBlock.checkpointB]
      | ok u3 =>
        simp only []
        rw [allNotDoneB_append, allNotDoneB_append, allNotDoneB_append, allNotDoneB_append]
        simp only [Bool.and_eq_true]
        refine ⟨⟨⟨⟨h, allNotDoneB_map_progress (fun i => i) .generated _⟩, ?_⟩,
          allNotDoneB_map_progress
            (fun i : List Question => i.map stampBatch2)
            .generated _⟩, ?_⟩
        · simp [allNotDoneB, StreamBlock.checkpointB]
        · simp [allNotDoneB, StreamBlock.finishB]

theorem stage_gen_notDone (env : GenEnv) (st : PipeSt) :
    allNotDoneB (stage_gen env st).1 = true := by
  simp only [stage_gen]
  split
  · exact stage_gen_tail_notDone env _ _ (by simp [allNotDoneB, StreamBlock.startB])
  · cases env.knowledge with
    | cancel => simp [allNotDoneB, StreamBlock.startB]
    | ok k => exact stage_gen_tail_notDone env _ _ (by simp [allNotDoneB, StreamBlock.startB])
    | exn => exact stage_gen_tail_notDone env _ _ (by simp [allNotDoneB, StreamBlock.startB])

theorem andThen_notDone (r : StageRes) (f : PipeSt → StageRes)
    (hr : allNotDoneB r.1 = true) (hf : ∀ st, allNotDoneB (f st).1 = true) :
    allNotDoneB (andThen r f).1 = true := by
  rcases r with ⟨bs, st, e⟩
  cases e with
  | none =>
    simp only [andThen]
    rw [allNotDoneB_append, Bool.and_eq_true]
    exact ⟨hr, hf st⟩
  | some e => simpa using hr

theorem pipeBody_notDone (env : GenEnv) : allNotDoneB (pipeBody env).1 = true := by
  unfold pipeBody
  apply andThen_notDone _ _ ?_ (fun st => stage_gen_notDone env st)
  apply andThen_notDone _ _ ?_ (fun st => stage_tier3_notDone env st)
  apply andThen_notDone _ _ ?_ (fun st => stage_tier2_notDone env st)
  apply andThen_notDone _ _ ?_ (fun st => stage_tier1_notDone env st)
  rw [stage_pre_blocks]
  rfl

theorem allNotDoneB_spec (bs : List StreamBlock) (h : allNotDoneB bs = true) :
    ∀ b ∈ bs, b.done = false := by
  intro b hb
  have h2 := List.all_eq_true.mp h b hb
  simpa using h2

theorem iter_blocks_questions (env : GenEnv) :
    (iter_blocks env).2.questionsOf = (pipeBody env).2.1.questions := by
  unfold iter_blocks
  rcases pipeBody env with ⟨bs, st, e⟩
  rcases e with _ | e
  · rfl
  · cases e <;> rfl

/-- C1: on every execution — success, stage exception, or cancellation —
`iter_blocks` emits exactly one terminal (`done=true`) block; it is the
last block on the stream, and it carries the total question count (the
length of the same accumulated list the outcome notification carries)
and the total elapsed wall-clock time. -/
theorem iter_blocks_c1 (env : GenEnv) :
    (((iter_blocks env).1.filter (fun b => b.done)).length = 1) ∧
    ∃ b, (iter_blocks env).1.getLast? = some b ∧ b.done = true ∧
      b.count = some (iter_blocks env).2.questionsOf.length ∧
      b.time = some (env.tFinal - env.tStart) := by
  have hq := iter_blocks_questions env
  have hnd := allNotDoneB_spec _ (pipeBody_notDone env)
  have hstream : (iter_blocks env).1 =
      (pipeBody env).1 ++ [StreamBlock.terminalB (pipeBody env).2.1.questions.length
        (env.tFinal - env.tStart)] := by
    unfold iter_blocks
    rcases pipeBody env with ⟨bs, st, e⟩
    rfl
  constructor
  · rw [hstream, List.filter_append]
    have h1 : (pipeBody env).1.filter (fun b => b.done) = [] := by
      rw [List.filter_eq_nil]
      intro b hb
      simp [hnd b hb]
    rw [h1]
    rfl
  · refine ⟨StreamBlock.terminalB (pipeBody env).2.1.questions.length
      (env.tFinal - env.tStart), ?_, rfl, ?_, rfl⟩
    · rw [hstream]
      exact List.getLast?_concat _
    · rw [hq]
      rfl

theorem checkCounts_append (m : QuestionSource → Nat) (xs ys : List StreamBlock) :
    checkCounts m (xs ++ ys) =
      (checkCounts m xs && checkCounts (xs.foldl stepCount m) ys) := by
  induction xs generalizing m with
  | nil => simp [checkCounts]
  | cons b bs ih => simp [checkCounts, ih, Bool.and_assoc]

theorem stage_tier1_counts (env : GenEnv) (st : PipeSt) (m : QuestionSource → Nat) :
    checkCounts m (stage_tier1 env st).1 = true := by
  simp only [stage_tier1]
  repeat' split
  all_goals
    simp [checkCounts, stepCount, progLen, StreamBlock.startB, StreamBlock.finishB,
      StreamBlock.progressB]

theorem stage_tier2_counts (env : GenEnv) (st : PipeSt) (m : QuestionSource → Nat) :
    checkCounts m (stage_tier2 env st).1 = true := by
  simp only [stage_tier2]
  repeat' split
  all_goals
    simp [checkCounts, stepCount, progLen, StreamBlock.startB, StreamBlock.finishB,
      StreamBlock.progressB]

theorem stage_tier3_tail_counts (env : GenEnv) (st : PipeSt) (m : QuestionSource → Nat) :
    checkCounts m (stage_tier3_tail env [StreamBlock.startB .historical] st).1 = true := by
  simp only [stage_tier3_tail]
  repeat' split
  all_goals
    simp [checkCounts, stepCount, progLen, closeEs_blocks, StreamBlock.startB,
      StreamBlock.finishB, StreamBlock.progressB]

theorem stage_tier3_counts (env : GenEnv) (st : PipeSt) (m : QuestionSource → Nat) :
    checkCounts m (stage_tier3 env st).1 = true := by
  simp only [stage_tier3]
  repeat' split
  all_goals
    try exact stage_tier3_tail_counts env _ m
  all_goals
    simp [checkCounts, stepCount, progLen, closeEs_blocks, StreamBlock.startB,
      StreamBlock.finishB]

theorem checkCounts_map_progress {α : Type} (m : QuestionSource → Nat)
    (t : QuestionSource) (f : α → List Question) (l : List α) :
    checkCounts m (l.map (fun i => StreamBlock.progressB t (f i))) = true := by
  induction l generalizing m with
  | nil => rfl
  | cons i is ih =>
    simp only [List.map_cons, checkCounts]
    rw [ih]
    simp [StreamBlock.progressB]

theorem foldl_stepCount_map_progress {α : Type} (m : QuestionSource → Nat)
    (t : QuestionSource) (f : α → List Question) (l : List α) (u : QuestionSource) :
    ((l.map (fun i => StreamBlock.progressB t (f i))).foldl stepCount m) u =
      if u = t then m t + ((l.map f).flatten).length else m u := by
  induction l generalizing m with
  | nil =>
    by_cases hu : u = t
    · subst hu; simp
    · simp [hu]
  | cons i is ih =>
    simp only [List.map_cons, List.foldl_cons]
    rw [ih]
    by_cases hu : u = t
    · subst hu
      simp [stepCount, StreamBlock.progressB, progLen, Nat.add_assoc]
    · simp [hu, stepCount, StreamBlock.progressB]

theorem flatten_filter_nonempty {α : Type} [DecidableEq α] (l : List (List α)) :
    (l.filter (fun i => !(i == []))).flatten = l.flatten := by
  induction l with
  | nil => rfl
  | cons i is ih =>
    rw [List.filter_cons]
    by_cases hi : i = []
    · subst hi
      rw [if_neg (by simp), ih, List.flatten_cons, List.nil_append]
    · rw [if_pos (by simp [hi]), List.flatten_cons, List.flatten_cons, ih]

theorem checkCounts_progress1 (m : QuestionSource → Nat) (l : List (List Question)) :
    checkCounts m (l.map (fun i => StreamBlock.progressB .generated i)) = true :=
  checkCounts_map_progress m .generated (fun i => i) l

theorem checkCounts_progress2 (m : QuestionSource → Nat) (l : List (List Question)) :
    checkCounts m (l.map (fun i => StreamBlock.progressB .generated
      (i.map stampBatch2))) = true :=
  checkCounts_map_progress m .generated
    (fun i => i.map stampBatch2) l

theorem foldl_stepCount_progress1 (m : QuestionSource → Nat) (l : List (List Question))
    (u : QuestionSource) :
    ((l.map (fun i => StreamBlock.progressB .generated i)).foldl stepCount m) u =
      if u = .generated then m .generated + l.flatten.length else m u := by
  have h := foldl_stepCount_map_progress m .generated (fun i => i) l u
  simpa using h

theorem foldl_stepCount_progress2 (m : QuestionSource → Nat) (l : List (List Question))
    (u : QuestionSource) :
    ((l.map (fun i => StreamBlock.progressB .generated
        (i.map stampBatch2))).foldl stepCount m) u =
      if u = .generated then m .generated + l.flatten.length else m u := by
  have h := foldl_stepCount_map_progress m .generated
    (fun i => i.map stampBatch2) l u
  rw [h]
  have hlen : ((l.map (fun i => i.map stampBatch2)).flatten).length
      = l.flatten.length := by
    simp [List.length_flatten, List.map_map, Function.comp_def]
  rw [hlen]

theorem stepCount_checkpoint (m : QuestionSource → Nat) (t : QuestionSource) (c : Nat)
    (e : ℤ) : stepCount m (StreamBlock.checkpointB t c e) = m := rfl

theorem checkCounts_finish_single (m : QuestionSource → Nat) (t : QuestionSource)
    (c : Nat) (e : ℤ) :
    (checkCounts m [StreamBlock.finishB t c e] = true) ↔ c = m t := by
  simp [checkCounts, StreamBlock.finishB]

theorem checkCounts_checkpoint_single (m : QuestionSource → Nat) (t : QuestionSource)
    (c : Nat) (e : ℤ) :
    (checkCounts m [StreamBlock.checkpointB t c e] = true) ↔ c = m t := by
  simp [checkCounts, StreamBlock.checkpointB]

theorem foldl_stepCount_start (m : QuestionSource → Nat) (t u : QuestionSource) :
    (([StreamBlock.startB t]).foldl stepCount m) u = if u = t then 0 else m u := by
  simp [stepCount, StreamBlock.startB]

theorem stage_gen_tail_counts (env : GenEnv) (st : PipeSt) (m : QuestionSource → Nat)
    (hc : st.count_gen = 0) (hq : st.qs_gen = []) :
    checkCounts m (stage_gen_tail env [StreamBlock.startB .generated] st).1 = true := by
  simp only [stage_gen_tail]
  cases env.log_search_ext2 with
  | exn => simp [checkCounts, StreamBlock.startB]
  | cancel => simp [checkCounts, StreamBlock.startB]
  | ok u =>
    rw [genFold1_spec]
    cases env.gen1_end with
    | exn =>
      simp only []
      rw [checkCounts_append]
      simp only [Bool.and_eq_true]
      exact ⟨by simp [checkCounts, StreamBlock.startB], checkCounts_progress1 _ _⟩
    | cancel =>
      simp only []
      rw [checkCounts_append]
      simp only [Bool.and_eq_true]
      exact ⟨by simp [checkCounts, StreamBlock.startB], checkCounts_progress1 _ _⟩
    | ok u2 =>
      rw [genFold2_spec]
      cases env.gen2_end with
      | exn =>
        simp only []
        rw [checkCounts_append, checkCounts_append, checkCounts_append]
        simp only [Bool.and_eq_true]
        refine ⟨⟨⟨by simp [checkCounts, StreamBlock.startB], checkCounts_progress1 _ _⟩, ?_⟩,
          checkCounts_progress2 _ _⟩
        rw [checkCounts_checkpoint_single, List.foldl_append, foldl_stepCount_progress1,
          if_pos rfl, foldl_stepCount_start, if_pos rfl, flatten_filter_nonempty]
        simp [hq]
      | cancel =>
        simp only []
        rw [checkCounts_append, checkCounts_append, checkCounts_append]
        simp only [Bool.and_eq_true]
        refine ⟨⟨⟨by simp [checkCounts, StreamBlock.startB], checkCounts_progress1 _ _⟩, ?_⟩,
          checkCounts_progress2 _ _⟩
        rw [checkCounts_checkpoint_single, List.foldl_append, foldl_stepCount_progress1,
          if_pos rfl, foldl_stepCount_start, if_pos rfl, flatten_filter_nonempty]
        simp [hq]
      | ok u3 =>
        simp only []
        rw [checkCounts_append, checkCounts_append, checkCounts_append, checkCounts_append]
        simp only [Bool.and_eq_true]
        refine ⟨⟨⟨⟨by simp [checkCounts, StreamBlock.startB], checkCounts_progress1 _ _⟩,
          ?_⟩, checkCounts_progress2 _ _⟩, ?_⟩
        · rw [checkCounts_checkpoint_single, List.foldl_append, foldl_stepCount_progress1,
            if_pos rfl, foldl_stepCount_start, if_pos rfl, flatten_filter_nonempty]
          simp [hq]
        · rw [checkCounts_finish_single]
          rw [List.foldl_append, List.foldl_append, List.foldl_append]
          simp only [List.foldl_cons, List.foldl_nil, stepCount_checkpoint]
          rw [foldl_stepCount_progress2, if_pos rfl]
          rw [foldl_stepCount_progress1, if_pos rfl]
          rw [flatten_filter_nonempty, flatten_filter_nonempty]
          have hs : stepCount m (StreamBlock.startB .generated) QuestionSource.generated
              = 0 := by
            simp [stepCount, StreamBlock.startB]
          rw [hs, hc]

theorem stage_gen_counts (env : GenEnv) (st : PipeSt) (m : QuestionSource → Nat) :
    checkCounts m (stage_gen env st).1 = true := by
  simp only [stage_gen]
  split
  · exact stage_gen_tail_counts env _ m rfl rfl
  · cases env.knowledge with
    | cancel => simp [checkCounts, StreamBlock.startB]
    | ok k => exact stage_gen_tail_counts env _ m rfl rfl
    | exn => exact stage_gen_tail_counts env _ m rfl rfl

theorem andThen_counts (r : StageRes) (f : PipeSt → StageRes)
    (hr : ∀ m, checkCounts m r.1 = true)
    (hf : ∀ st m, checkCounts m (f st).1 = true) :
    ∀ m, checkCounts m (andThen r f).1 = true := by
  intro m
  rcases r with ⟨bs, st, e⟩
  cases e with
  | none =>
    simp only [andThen]
    rw [checkCounts_append]
    simp only [Bool.and_eq_true]
    exact ⟨hr m, hf st _⟩
  | some e => exact hr m

theorem pipeBody_counts (env : GenEnv) :
    ∀ m, checkCounts m (pipeBody env).1 = true := by
  unfold pipeBody
  apply andThen_counts _ _ ?_ (fun st m => stage_gen_counts env st m)
  apply andThen_counts _ _ ?_ (fun st m => stage_tier3_counts env st m)
  apply andThen_counts _ _ ?_ (fun st m => stage_tier2_counts env st m)
  apply andThen_counts _ _ ?_ (fun st m => stage_tier1_counts env st m)
  intro m
  rw [stage_pre_blocks]
  rfl

theorem iter_blocks_checkCounts (env : GenEnv) :
    checkCounts (fun _ => 0) (iter_blocks env).1 = true := by
  have h := pipeBody_counts env
  unfold iter_blocks
  rcases hpb : pipeBody env with ⟨bs, st, e⟩
  rw [hpb] at h
  simp only []
  rw [checkCounts_append]
  simp only [Bool.and_eq_true]
  exact ⟨h _, by simp [checkCounts, StreamBlock.terminalB]⟩

theorem checkCounts_spec (m : QuestionSource → Nat) (pre : List StreamBlock)
    (b : StreamBlock) (suf : List StreamBlock)
    (h : checkCounts m (pre ++ b :: suf) = true)
    (hst : b.status = some .finish ∨ b.status = some .checkpoint)
    (t : QuestionSource) (ht : b.q_src = some t) :
    b.count = some ((pre.foldl stepCount m) t) := by
  induction pre generalizing m with
  | nil =>
    rw [List.nil_append] at h
    simp only [checkCounts, Bool.and_eq_true] at h
    rcases hst with h2 | h2 <;>
    · rw [ht, h2] at h
      have h3 := h.1
      simp only [beq_iff_eq] at h3
      exact h3
  | cons x pre ih =>
    rw [List.cons_append] at h
    simp only [checkCounts, Bool.and_eq_true] at h
    exact ih (stepCount m x) h.2

/-- C3: wherever the stream of `iter_blocks` contains a `finish` or
`checkpoint` block for a source tag, its `count` equals the total number
of questions carried by the `progress` blocks emitted for that tag since
the tag's `start` block. -/
theorem iter_blocks_c3 (env : GenEnv) (pre : List StreamBlock) (b : StreamBlock)
    (suf : List StreamBlock) (hs : (iter_blocks env).1 = pre ++ b :: suf)
    (hst : b.status = some .finish ∨ b.status = some .checkpoint)
    (t : QuestionSource) (ht : b.q_src = some t) :
    b.count = some (runningCount t pre) :=
  checkCounts_spec (fun _ => 0) pre b suf (by rw [← hs]; exact iter_blocks_checkCounts env)
    hst t ht

/-- Witness for `iter_blocks_c3`: a run whose same-course tier returns
one question; the same-course `finish` block's count (1) equals the
questions carried by the progress blocks for that tag before it. -/
theorem iter_blocks_c3_witness :
    ((iter_blocks envC3).1 =
      [StreamBlock.startB .sameCourse, StreamBlock.progressB .sameCourse [qC3]] ++
        StreamBlock.finishB .sameCourse 1 1 ::
          [StreamBlock.startB .sameUniversity, StreamBlock.finishB .sameUniversity 0 1,
           StreamBlock.startB .historical, StreamBlock.finishB .historical 0 1,
           StreamBlock.startB .generated, StreamBlock.checkpointB .generated 0 1,
           StreamBlock.finishB .generated 0 2,
           StreamBlock.terminalB 1 6]) ∧
    (StreamBlock.finishB .sameCourse 1 1).count =
      some (runningCount .sameCourse
        [StreamBlock.startB .sameCourse, StreamBlock.progressB .sameCourse [qC3]]) :=
  ⟨by decide,
   iter_blocks_c3 envC3
     [StreamBlock.startB .sameCourse, StreamBlock.progressB .sameCourse [qC3]]
     (StreamBlock.finishB .sameCourse 1 1)
     [StreamBlock.startB .sameUniversity, StreamBlock.finishB .sameUniversity 0 1,
      StreamBlock.startB .historical, StreamBlock.finishB .historical 0 1,
      StreamBlock.startB .generated, StreamBlock.checkpointB .generated 0 1,
      StreamBlock.finishB .generated 0 2,
      StreamBlock.terminalB 1 6]
     (by decide) (Or.inl rfl) .sameCourse rfl⟩

/-- C4, counterexample: a run whose first batch yields 2 questions
(between tGenStart=3 and tGen1End=4) and whose second batch yields 1
question (until tGen2End=5).  The Generated `finish` block emitted after
batch 2 carries count 3 and time 2 — the cumulative count and elapsed
time of *both* batches — not the batch-2-only count 1 and time 1 the
claim asserts.  (The progress blocks under the Generated tag carry 2 and
then 1 questions; the checkpoint between them carries batch 1's count.) -/
theorem iter_blocks_c4_counterexample :
    ((iter_blocks envC4).1.filter
        (fun b => b.q_src == some QuestionSource.generated &&
          b.status == some BlockStatus.finish)) =
      [StreamBlock.finishB .generated 3 2] ∧
    ((iter_blocks envC4).1.filter
        (fun b => b.status == some BlockStatus.checkpoint)) =
      [StreamBlock.checkpointB .generated 2 1] ∧
    (((iter_blocks envC4).1.filter
        (fun b => b.q_src == some QuestionSource.generated &&
          b.status == some BlockStatus.progress)).map progLen) = [2, 1] ∧
    (3 : Nat) ≠ 1 ∧ (2 : ℤ) ≠ 1 := by
  refine ⟨by decide, by decide, by decide, by decide, by decide⟩

theorem pipeBody_success_shape (env : GenEnv) (aq : AQOut) (k : Knowledge)
    (h1 : env.log_search = .ok ()) (h2 : env.analyze_query = .ok aq)
    (h3 : env.log_search_ext1 = .ok ()) (h4 : env.es_open = .ok ())
    (h5 : env.tier1 = .ok []) (h6 : env.tier2 = .ok []) (h7 : env.tier3 = .ok [])
    (h8 : env.es_close = .ok ()) (h9 : env.knowledge = .ok k)
    (h10 : env.log_search_ext2 = .ok ()) (h11 : env.gen1_end = .ok ())
    (h12 : env.gen2_end = .ok ()) :
    pipeBody env =
      ([StreamBlock.startB .sameCourse,
        StreamBlock.finishB .sameCourse 0 (env.tSameCourseEnd - env.tSameCourseStart),
        StreamBlock.startB .sameUniversity,
        StreamBlock.finishB .sameUniversity 0 (env.tUnivEnd - env.tUnivStart),
        StreamBlock.startB .historical,
        StreamBlock.finishB .historical 0 (env.tHistEnd - env.tHistStart),
        StreamBlock.startB .generated] ++
        ((env.gen1_increments.filter (fun i => !(i == []))).map
          (fun i => StreamBlock.progressB .generated i) ++
        ([StreamBlock.checkpointB .generated env.gen1_increments.flatten.length
          (env.tGen1End - env.tGenStart)] ++
        ((env.gen2_increments.filter (fun i => !(i == []))).map
          (fun i => StreamBlock.progressB .generated (i.map stampBatch2)) ++
        [StreamBlock.finishB .generated
          (env.gen1_increments.flatten.length + env.gen2_increments.flatten.length)
          (env.tGen2End - env.tGenStart)]))),
       { questions := env.gen1_increments.flatten ++
           (env.gen2_increments.flatten.map stampBatch2),
         count_gen := env.gen1_increments.flatten.length +
           env.gen2_increments.flatten.length,
         count_gen_1 := env.gen1_increments.flatten.length,
         count_gen_2 := (env.gen1_increments.flatten ++
           (env.gen2_increments.flatten.map stampBatch2)).length -
           env.gen1_increments.flatten.length,
         elapsed_same_course := env.tSameCourseEnd - env.tSameCourseStart,
         elapsed_same_univ := env.tUnivEnd - env.tUnivStart,
         elapsed_historical := env.tHistEnd - env.tHistStart,
         elapsed_gen := env.tGen2End - env.tGenStart,
         elapsed_gen_1 := env.tGen1End - env.tGenStart,
         elapsed_gen_2 := (env.tGen2End - env.tGenStart) - (env.tGen1End - env.tGenStart),
         knowledge_joined := true,
         qs_gen := env.gen1_increments.flatten ++
           (env.gen2_increments.flatten.map stampBatch2) },
       none) := by
  simp [pipeBody, andThen, stage_pre, stage_tier1, stage_tier2, stage_tier3, stage_gen,
    stage_gen_tail, closeEs, h1, h2, h3, h4, h5, h6, h7, h8, h9, h10, h11, h12,
    genFold1_spec, genFold2_spec]

/-- C4 (amended): when the second generation batch completes, the
`finish` block emitted under the Generated tag — the last block before
the terminal one — carries the *cumulative* question count of both
batches and the elapsed time measured from the start of generation
(`count_gen` and `perf_counter() - time_gen_start`, routers.py:615-620);
the batch-2-only count and elapsed time are carried by the `batch_no=2`
`QuestionSection` of the outcome notification instead. -/
theorem iter_blocks_c4_amended (env : GenEnv) (aq : AQOut) (k : Knowledge)
    (h1 : env.log_search = .ok ()) (h2 : env.analyze_query = .ok aq)
    (h3 : env.log_search_ext1 = .ok ()) (h4 : env.es_open = .ok ())
    (h5 : env.tier1 = .ok []) (h6 : env.tier2 = .ok []) (h7 : env.tier3 = .ok [])
    (h8 : env.es_close = .ok ()) (h9 : env.knowledge = .ok k)
    (h10 : env.log_search_ext2 = .ok ()) (h11 : env.gen1_end = .ok ())
    (h12 : env.gen2_end = .ok ()) :
    ∃ pre questions sections,
      (iter_blocks env).1 = pre ++
        [StreamBlock.finishB .generated
          (env.gen1_increments.flatten.length + env.gen2_increments.flatten.length)
          (env.tGen2End - env.tGenStart),
         StreamBlock.terminalB questions.length (env.tFinal - env.tStart)] ∧
      (StreamBlock.checkpointB .generated env.gen1_increments.flatten.length
        (env.tGen1End - env.tGenStart)) ∈ pre ∧
      (iter_blocks env).2 = Notify.ok env.task_id questions sections none ∧
      sections.getLast? = some (QuestionSection.mk .generated 2
        env.gen2_increments.flatten.length
        ((env.tGen2End - env.tGenStart) - (env.tGen1End - env.tGenStart))) := by
  have hshape := pipeBody_success_shape env aq k h1 h2 h3 h4 h5 h6 h7 h8 h9 h10 h11 h12
  unfold iter_blocks
  rw [hshape]
  refine ⟨[StreamBlock.startB .sameCourse,
        StreamBlock.finishB .sameCourse 0 (env.tSameCourseEnd - env.tSameCourseStart),
        StreamBlock.startB .sameUniversity,
        StreamBlock.finishB .sameUniversity 0 (env.tUnivEnd - env.tUnivStart),
        StreamBlock.startB .historical,
        StreamBlock.finishB .historical 0 (env.tHistEnd - env.tHistStart),
        StreamBlock.startB .generated] ++
        ((env.gen1_increments.filter (fun i => !(i == []))).map
          (fun i => StreamBlock.progressB .generated i) ++
        ([StreamBlock.checkpointB .generated env.gen1_increments.flatten.length
          (env.tGen1End - env.tGenStart)] ++
        (env.gen2_increments.filter (fun i => !(i == []))).map
          (fun i => StreamBlock.progressB .generated (i.map stampBatch2)))),
    env.gen1_increments.flatten ++ (env.gen2_increments.flatten.map stampBatch2),
    sectionsOf
      { questions := env.gen1_increments.flatten ++
          (env.gen2_increments.flatten.map stampBatch2),
        count_gen := env.gen1_increments.flatten.length +
          env.gen2_increments.flatten.length,
        count_gen_1 := env.gen1_increments.flatten.length,
        count_gen_2 := (env.gen1_increments.flatten ++
          (env.gen2_increments.flatten.map stampBatch2)).length -
          env.gen1_increments.flatten.length,
        elapsed_same_course := env.tSameCourseEnd - env.tSameCourseStart,
        elapsed_same_univ := env.tUnivEnd - env.tUnivStart,
        elapsed_historical := env.tHistEnd - env.tHistStart,
        elapsed_gen := env.tGen2End - env.tGenStart,
        elapsed_gen_1 := env.tGen1End - env.tGenStart,
        elapsed_gen_2 := (env.tGen2End - env.tGenStart) - (env.tGen1End - env.tGenStart),
        knowledge_joined := true,
        qs_gen := env.gen1_increments.flatten ++
          (env.gen2_increments.flatten.map stampBatch2) },
    ?_, ?_, ?_, ?_⟩
  · simp [List.append_assoc]
  · simp
  · rfl
  · simp [sectionsOf, List.length_append, List.length_map, Function.comp_def]

/-- Witness for `iter_blocks_c4_amended` at the concrete environment of
the counterexample run (with a successful query analysis). -/
theorem iter_blocks_c4_amended_witness :
    ∃ pre questions sections,
      (iter_blocks envC4w).1 = pre ++
        [StreamBlock.finishB .generated
          (envC4w.gen1_increments.flatten.length + envC4w.gen2_increments.flatten.length)
          (envC4w.tGen2End - envC4w.tGenStart),
         StreamBlock.terminalB questions.length (envC4w.tFinal - envC4w.tStart)] ∧
      (StreamBlock.checkpointB .generated envC4w.gen1_increments.flatten.length
        (envC4w.tGen1End - envC4w.tGenStart)) ∈ pre ∧
      (iter_blocks envC4w).2 = Notify.ok envC4w.task_id questions sections none ∧
      sections.getLast? = some (QuestionSection.mk .generated 2
        envC4w.gen2_increments.flatten.length
        ((envC4w.tGen2End - envC4w.tGenStart) - (envC4w.tGen1End - envC4w.tGenStart))) :=
  iter_blocks_c4_amended envC4w aqW
    { analyzed_context := {}, key_points := [], chunks := [] }
    rfl rfl rfl rfl rfl rfl rfl rfl rfl rfl rfl rfl

/-- C8: when cancellation strikes at the tier-3 fetch — after tiers 1
and 2 completed, before generation starts — the outcome notifier is
invoked with the *success* variant (not the error variant), carrying
exactly the questions accumulated from tiers 1 and 2 and the explicit
`"request cancelled"` annotation, and the stream still ends with a
terminal block whose count is that same accumulated total. -/
theorem iter_blocks_c8 (env : GenEnv) (aq : AQOut) (k : Knowledge)
    (qs1 qs2 v2 : List Question)
    (h1 : env.log_search = .ok ()) (h2 : env.analyze_query = .ok aq)
    (h3 : env.log_search_ext1 = .ok ()) (h4 : env.es_open = .ok ())
    (h5 : env.tier1 = .ok qs1) (h6 : env.tier2 = .ok qs2)
    (h7 : env.knowledge = .ok k) (h8 : env.verify2 = .ok v2)
    (h9 : env.log_verify2 = .ok ()) (h10 : env.tier3 = .cancel) :
    ∃ sections,
      (iter_blocks env).2 = Notify.ok env.task_id
        ((if qs1 = [] then [] else cleanse_question_content (sort_by_year qs1)) ++
          (if qs2 = [] then [] else if v2 = [] then [] else v2))
        sections (some "request cancelled") ∧
      (iter_blocks env).1.getLast? = some (StreamBlock.terminalB
        ((if qs1 = [] then [] else cleanse_question_content (sort_by_year qs1)) ++
          (if qs2 = [] then [] else if v2 = [] then [] else v2)).length
        (env.tFinal - env.tStart)) := by
  have hpipe : (pipeBody env).2.1.questions =
      ((if qs1 = [] then [] else cleanse_question_content (sort_by_year qs1)) ++
        (if qs2 = [] then [] else if v2 = [] then [] else v2)) ∧
      (pipeBody env).2.2 = some PipeExit.cancel := by
    by_cases hq1 : qs1 = [] <;> by_cases hq2 : qs2 = [] <;> by_cases hv : v2 = [] <;>
      simp [pipeBody, andThen, stage_pre, stage_tier1, stage_tier2, stage_tier3,
        h1, h2, h3, h4, h5, h6, h7, h8, h9, h10, hq1, hq2, hv]
  obtain ⟨hq, he⟩ := hpipe
  refine ⟨sectionsOf (pipeBody env).2.1, ?_, ?_⟩
  · unfold iter_blocks
    rcases hpb : pipeBody env with ⟨bs, st, e⟩
    rw [hpb] at hq he
    simp only [] at hq he
    have he2 : e = some PipeExit.cancel := he
    subst he2
    simp only []
    rw [hq]
  · unfold iter_blocks
    rcases hpb : pipeBody env with ⟨bs, st, e⟩
    rw [hpb] at hq he
    simp only [] at hq he
    simp only [List.getLast?_concat]
    rw [hq]

/-- Witness for `iter_blocks_c8`: tier 1 returned one question, tier 2
returned one verified question, and the tier-3 fetch was cancelled. -/
theorem iter_blocks_c8_witness :
    ∃ sections,
      (iter_blocks envC8).2 = Notify.ok envC8.task_id
        ((if [qT1] = ([] : List Question) then []
          else cleanse_question_content (sort_by_year [qT1])) ++
          (if [qT2] = ([] : List Question) then []
           else if [qT2] = ([] : List Question) then [] else [qT2]))
        sections (some "request cancelled") ∧
      (iter_blocks envC8).1.getLast? = some (StreamBlock.terminalB
        ((if [qT1] = ([] : List Question) then []
          else cleanse_question_content (sort_by_year [qT1])) ++
          (if [qT2] = ([] : List Question) then []
           else if [qT2] = ([] : List Question) then [] else [qT2])).length
        (envC8.tFinal - envC8.tStart)) :=
  iter_blocks_c8 envC8 aqW { analyzed_context := {}, key_points := [], chunks := [] }
    [qT1] [qT2] [qT2] rfl rfl rfl rfl rfl rfl rfl rfl rfl rfl
